import Mathlib

/-
  Verification model of the alucard_hotplug CPU-core hotplug controller
  (arch/arm/mach-msm/alucard_hotplug.c), shallowly embedded in Lean.

  Machine integers are modelled as Nat/Int with explicit reductions modulo
  2^32 (unsigned int) and 2^64 (u64 / cputime64_t) where the C code mixes
  widths or signedness.  C comparisons between an unsigned operand and an
  int operand are performed unsigned (the int is converted), which is
  reflected by u32ofInt below.  Per-cpu arrays are modelled as functions
  from the cpu index; the external world (hardware online mask, cumulative
  idle/wall counters, frequency readings) is an explicit Env record.
-/

namespace Alucard

/-- Value of an int converted to a 32-bit unsigned integer (C usual
arithmetic conversions). -/
def u32ofInt (x : Int) : Nat := (x % ((2:Int)^32)).toNat

/-- C expression (unsigned int)(a - b) where a, b are u64 values. -/
def u32sub (a b : Nat) : Nat := u32ofInt ((a : Int) - (b : Int))

/-- Reinterpretation of an unsigned 32-bit value as a signed int
(assignment of an unsigned expression to an int variable). -/
def i32ofNat (x : Nat) : Int :=
  if x % 2^32 < 2^31 then ((x % 2^32 : Nat) : Int) else ((x % 2^32 : Nat) : Int) - (2:Int)^32

/-- Value of a C boolean (0/1 int) such as the result of cpu_online. -/
def intOfBool (b : Bool) : Int := if b then 1 else 0

/-- DOWN_INDEX from the source. -/
def DOWN_INDEX : Nat := 0

/-- UP_INDEX from the source. -/
def UP_INDEX : Nat := 1

/-- struct hotplug_cpuinfo: per-cpu record (od_hotplug_cpuinfo). -/
structure hotplug_cpuinfo where
  prev_cpu_wall : Nat
  prev_cpu_idle : Nat
  online : Bool
  up_cpu : Int
  up_by_cpu : Int
deriving DecidableEq

/-- struct hotplug_tuners (hotplug_tuners_ins): the tunable configuration. -/
structure hotplug_tuners where
  hotplug_sampling_rate : Int
  hotplug_enable : Int
  cpu_up_rate : Int
  cpu_down_rate : Int
  maxcoreslimit : Int
  accuratecpufreq : Int
deriving DecidableEq

/-- The hotplug_freq / hotplug_load / hotplug_rq threshold tables,
each indexed first by row (cpu index in the source access pattern) and
then by direction (DOWN_INDEX = 0 / UP_INDEX = 1). -/
structure HotplugTables where
  hotplug_freq : Nat → Nat → Int
  hotplug_load : Nat → Nat → Int
  hotplug_rq : Nat → Nat → Int

/-- struct runqueue_data: the fields of the run-queue sampler that carry
the weighted average (work/workqueue plumbing is modelled by the pending
flags of HState). -/
structure runqueue_data where
  nr_run_avg : Nat
  last_time : Nat
  total_time : Nat
deriving DecidableEq

/-- External collaborators of one controller step: hardware online mask,
cumulative idle+iowait and wall microsecond counters, and the two
frequency sources. -/
structure Env where
  cpu_online : Nat → Bool
  wall_us : Nat → Nat
  idle_us : Nat → Nat
  acpu_freq : Nat → Nat
  quick_freq : Nat → Nat

/-- The controller state: tunables, threshold tables, per-cpu records,
the tick counter (hotplugging_rate), the sampler data and the
scheduled/pending status of the four work items. -/
structure HState where
  tuners : hotplug_tuners
  tbl : HotplugTables
  percpu : Nat → hotplug_cpuinfo
  hotplugging_rate : Nat
  rq : runqueue_data
  tickPending : Bool
  rqPending : Bool
  onlineWorkPending : Bool
  offlineWorkPending : Bool

/-- The per-tick constants read at the top of hotplug_work_fn. -/
structure TickCtx where
  tbl : HotplugTables
  env : Env
  check_up : Bool
  check_down : Bool
  upmaxcoreslimit : Int
  downmaxcoreslimit : Int
  accuratecpufreq : Bool
  rq_avg : Nat

/-- The mutable locals of hotplug_work_fn's per-cpu loop together with the
per-cpu table being updated and the selections handed to the executors. -/
structure LoopAcc where
  percpu : Nat → hotplug_cpuinfo
  other : Bool
  schedule_up_cpu : Int
  schedule_down_cpu : Int
  up_cpu_req : Int
  downSelected : List Nat
  onlineMarked : List Nat

/-- Observable outcome of one firing of hotplug_work_fn. -/
structure TickOut where
  downSelected : List Nat
  onlineMarked : List Nat
  check_up : Bool
  check_down : Bool
  up_cpu_req : Int
  drift : Bool
  rescheduled : Bool
deriving DecidableEq

/-- Point update of a per-cpu table. -/
def updInfo (t : Nat → hotplug_cpuinfo) (i : Nat) (v : hotplug_cpuinfo) :
    Nat → hotplug_cpuinfo :=
  fun j => if j = i then v else t j

/-- cur_load computation: load is defined only when the core is online and
wall_time is at least idle_time; otherwise the -1 sentinel. -/
def computeLoad (online : Bool) (wall_time idle_time : Nat) : Int :=
  if idle_time ≤ wall_time ∧ online = true then
    if idle_time < wall_time then i32ofNat (100 * (wall_time - idle_time) % 2^32 / wall_time)
    else 0
  else -1

/-- cur_freq computation: read from the source selected by accuratecpufreq,
or 0 when the load is undefined. -/
def computeFreq (ctx : TickCtx) (cpu : Nat) (online : Bool) (wall_time idle_time : Nat) : Nat :=
  if idle_time ≤ wall_time ∧ online = true then
    (if ctx.accuratecpufreq then ctx.env.acpu_freq cpu else ctx.env.quick_freq cpu) % 2^32
  else 0

/-- Lines 670-680: compare the recorded online flag with the hardware,
flag external hotplugging on mismatch, and for a (consistently) offline
core restore its own eligibility and the eligibility of the core that
brought it up. -/
def driftPhase (acc : LoopAcc) (cpu : Nat) (online : Bool) : LoopAcc :=
  if (acc.percpu cpu).online ≠ online then { acc with other := true }
  else if online = false then
    let t1 := updInfo acc.percpu cpu ({ acc.percpu cpu with up_cpu := 1 })
    let ub := (acc.percpu cpu).up_by_cpu
    if 0 ≤ ub then
      let t2 := updInfo t1 ub.toNat ({ t1 ub.toNat with up_cpu := 1 })
      let t3 := updInfo t2 cpu ({ t2 cpu with up_by_cpu := -1 })
      { acc with percpu := t3 }
    else { acc with percpu := t1 }
  else acc

/-- Lines 697-709: the up evaluation; on qualification the core becomes the
trigger (up_cpu_req) and loses its own up eligibility. -/
def upEvalPhase (ctx : TickCtx) (acc : LoopAcc) (cpu : Nat) (online : Bool)
    (cur_load : Int) (cur_freq : Nat) : LoopAcc :=
  if ctx.check_up = true ∧ cpu < u32ofInt (ctx.upmaxcoreslimit - 1)
     ∧ 0 < (acc.percpu cpu).up_cpu ∧ 0 < acc.schedule_up_cpu ∧ online = true then
    if ctx.tbl.hotplug_load cpu UP_INDEX ≤ cur_load
       ∧ u32ofInt (ctx.tbl.hotplug_freq cpu UP_INDEX) ≤ cur_freq
       ∧ u32ofInt (ctx.tbl.hotplug_rq cpu UP_INDEX) < ctx.rq_avg then
      { acc with
          schedule_up_cpu := acc.schedule_up_cpu - 1,
          percpu := updInfo acc.percpu cpu ({ acc.percpu cpu with up_cpu := 0 }),
          up_cpu_req := (cpu : Int) }
    else acc
  else acc

/-- Lines 710-723: the down evaluation; note that the local variable
online holds the 0/1 result of cpu_online, so the comparison with 2
reproduces the source expression online greater-or-equal 2. -/
def downEvalPhase (ctx : TickCtx) (acc : LoopAcc) (cpu : Nat) (online : Bool)
    (cur_load : Int) (cur_freq : Nat) : LoopAcc :=
  if ctx.check_down = true ∧ u32ofInt ctx.downmaxcoreslimit < cpu ∧ online = true
     ∧ 0 < acc.schedule_down_cpu ∧ 0 ≤ cur_load then
    if (2 ≤ intOfBool online ∧ cur_load < ctx.tbl.hotplug_load cpu DOWN_INDEX)
       ∨ (cur_freq ≤ u32ofInt (ctx.tbl.hotplug_freq cpu DOWN_INDEX)
          ∧ ctx.rq_avg ≤ u32ofInt (ctx.tbl.hotplug_rq cpu DOWN_INDEX)) then
      { acc with
          percpu := updInfo acc.percpu cpu ({ acc.percpu cpu with online := false }),
          schedule_down_cpu := acc.schedule_down_cpu - 1,
          downSelected := acc.downSelected ++ [cpu] }
    else acc
  else acc

/-- Lines 724-729: once a trigger has fired (schedule_up_cpu hit 0), the
next offline core in the iteration is marked online with the trigger
recorded in up_by_cpu. -/
def upMarkPhase (acc : LoopAcc) (cpu : Nat) (online : Bool) : LoopAcc :=
  if acc.schedule_up_cpu = 0 ∧ online = false then
    { acc with
        percpu := updInfo acc.percpu cpu ({ acc.percpu cpu with online := true, up_by_cpu := acc.up_cpu_req }),
        schedule_up_cpu := acc.schedule_up_cpu - 1,
        onlineMarked := acc.onlineMarked ++ [cpu] }
  else acc

/-- Body of the for_each_possible_cpu loop of hotplug_work_fn
(lines 639-731): update the idle/wall baselines, run the drift check, and
unless external hotplugging was detected evaluate up, down, and the
pending up-marking, in source order. -/
def hotplugLoopBody (ctx : TickCtx) (acc : LoopAcc) (cpu : Nat) : LoopAcc :=
  let cur_wall := ctx.env.wall_us cpu % 2^64
  let cur_idle := ctx.env.idle_us cpu % 2^64
  let wall_time := u32sub cur_wall (acc.percpu cpu).prev_cpu_wall
  let idle_time := u32sub cur_idle (acc.percpu cpu).prev_cpu_idle
  let online := ctx.env.cpu_online cpu
  let info1 := { acc.percpu cpu with prev_cpu_wall := cur_wall, prev_cpu_idle := cur_idle }
  let acc1 : LoopAcc := { acc with percpu := updInfo acc.percpu cpu info1 }
  let acc2 := driftPhase acc1 cpu online
  if acc2.other = true then acc2
  else
    upMarkPhase
      (downEvalPhase ctx
        (upEvalPhase ctx acc2 cpu online (computeLoad online wall_time idle_time)
          (computeFreq ctx cpu online wall_time idle_time))
        cpu online (computeLoad online wall_time idle_time)
        (computeFreq ctx cpu online wall_time idle_time))
      cpu online

/-- num_online_cpus() over the first n cpu indices. -/
def countOnline (n : Nat) (env : Env) : Nat :=
  ((List.range n).filter env.cpu_online).length

/-- Lines 733-740: resynchronize every per-cpu record with the hardware
online mask and reset eligibility and the back reference. -/
def resyncTable (n : Nat) (env : Env) (t : Nat → hotplug_cpuinfo) :
    Nat → hotplug_cpuinfo :=
  fun c => if c < n then
    { t c with online := env.cpu_online c, up_cpu := 1, up_by_cpu := -1 }
  else t c

/-- Line 614: the floor index for the down evaluation. -/
def downmaxcoreslimit (n : Nat) (t : hotplug_tuners) : Int :=
  if t.maxcoreslimit = (n : Int) then 0 else t.maxcoreslimit - 1

/-- The tick counter value after the increment at line 633 (unsigned int). -/
def tickRate (s : HState) : Nat := (s.hotplugging_rate + 1) % 2^32

/-- check_up at line 634. -/
def check_up_of (s : HState) : Bool :=
  tickRate s % u32ofInt s.tuners.cpu_up_rate == 0

/-- check_down at line 635. -/
def check_down_of (s : HState) : Bool :=
  tickRate s % u32ofInt s.tuners.cpu_down_rate == 0

/-- get_nr_run_avg: read the sampler average and reset it to 0. -/
def get_nr_run_avg (d : runqueue_data) : Nat × runqueue_data :=
  (d.nr_run_avg, { d with nr_run_avg := 0 })

/-- The per-tick constants assembled from the state and environment. -/
def tickCtx (n : Nat) (env : Env) (s : HState) : TickCtx :=
  { tbl := s.tbl, env := env,
    check_up := check_up_of s, check_down := check_down_of s,
    upmaxcoreslimit := s.tuners.maxcoreslimit,
    downmaxcoreslimit := downmaxcoreslimit n s.tuners,
    accuratecpufreq := decide (0 < s.tuners.accuratecpufreq),
    rq_avg := (get_nr_run_avg s.rq).1 }

/-- Initial loop accumulator (lines 621-626). -/
def tickAcc0 (s : HState) : LoopAcc :=
  { percpu := s.percpu, other := false, schedule_up_cpu := 1,
    schedule_down_cpu := 1, up_cpu_req := -1, downSelected := [], onlineMarked := [] }

/-- The whole per-cpu loop of one enabled tick. -/
def tickLoop (n : Nat) (env : Env) (s : HState) : LoopAcc :=
  (List.range n).foldl (hotplugLoopBody (tickCtx n env s)) (tickAcc0 s)

/-- Lines 742-744: wrap the tick counter once it reaches the larger rate
(unsigned comparison against the int maximum). -/
def tickRateWrap (s : HState) : Nat :=
  if u32ofInt (max s.tuners.cpu_up_rate s.tuners.cpu_down_rate) ≤ tickRate s then 0
  else tickRate s

/-- Lines 750-752: with a single online core, re-arm cpu 0's eligibility. -/
def tickPercpu2 (n : Nat) (env : Env) (t : Nat → hotplug_cpuinfo) :
    Nat → hotplug_cpuinfo :=
  if countOnline n env = 1 then updInfo t 0 ({ t 0 with up_cpu := 1 }) else t

/-- hotplug_work_fn: one firing of the decision-engine tick.  When the
enable flag is not positive the whole body is skipped and the tick is not
rescheduled; otherwise the counter is advanced, the sampler average is
consumed, the per-cpu loop runs, drift (if seen) forces a resync, the
counter wraps, and the tick is rescheduled.  The selections made inside
the loop are both recorded in the per-cpu table and surfaced in TickOut
(the schedule_work calls for the online/offline executors). -/
def hotplug_work_fn (n : Nat) (env : Env) (s : HState) : HState × TickOut :=
  if 0 < s.tuners.hotplug_enable then
    ({ s with
        percpu := tickPercpu2 n env
          (if (tickLoop n env s).other = true then
            resyncTable n env (tickLoop n env s).percpu
          else (tickLoop n env s).percpu),
        hotplugging_rate := tickRateWrap s,
        rq := (get_nr_run_avg s.rq).2,
        tickPending := true,
        offlineWorkPending := s.offlineWorkPending || !(tickLoop n env s).downSelected.isEmpty,
        onlineWorkPending := s.onlineWorkPending || !(tickLoop n env s).onlineMarked.isEmpty },
     { downSelected := (tickLoop n env s).downSelected,
       onlineMarked := (tickLoop n env s).onlineMarked,
       check_up := check_up_of s, check_down := check_down_of s,
       up_cpu_req := (tickLoop n env s).up_cpu_req,
       drift := (tickLoop n env s).other,
       rescheduled := true })
  else
    ({ s with tickPending := false },
     { downSelected := [], onlineMarked := [], check_up := false, check_down := false,
       up_cpu_req := -1, drift := false, rescheduled := false })

/-- rq_work_fn: fold one instantaneous runnable-task reading into the
weighted average.  curTime is the ktime in nanoseconds; do_div reduces
the elapsed time to milliseconds. -/
def rq_work_fn (curTime nrRunning : Nat) (d : runqueue_data) : runqueue_data :=
  let last := if d.last_time = 0 then curTime else d.last_time
  let total := if d.nr_run_avg = 0 then 0 else d.total_time
  let nr_run0 := nrRunning * 100
  let time_diff := (curTime - last) / 1000000
  let nr_run :=
    if time_diff ≠ 0 ∧ total ≠ 0 then
      (nr_run0 * time_diff + d.nr_run_avg * total) / (total + time_diff)
    else nr_run0
  { nr_run_avg := nr_run % 2^32, last_time := curTime, total_time := total + time_diff }

/-- The sampler fields right after start_rq_work's reset. -/
def start_rq_state : runqueue_data := { nr_run_avg := 0, last_time := 0, total_time := 0 }

/-- cpus_hotplugging: the enable path seeds every per-cpu record from
hardware truth, resets the tick counter and schedules the sampler and the
first tick; the disable path cancels only the sampler work and calls
cpu_down on every online core except cpu 0 (returned as the second
component).  The pending tick and the executor work items are not
touched. -/
def cpus_hotplugging (n : Nat) (env : Env) (state : Bool) (s : HState) :
    HState × List Nat :=
  if state then
    ({ s with
        rq := start_rq_state,
        rqPending := true,
        percpu := fun c => if c < n then
            { prev_cpu_wall := env.wall_us c % 2^64,
              prev_cpu_idle := env.idle_us c % 2^64,
              online := env.cpu_online c, up_cpu := 1, up_by_cpu := -1 }
          else s.percpu c,
        hotplugging_rate := 0,
        tickPending := true }, [])
  else
    ({ s with rqPending := false },
     (List.range n).filter (fun c => env.cpu_online c && !(c == 0)))

/-- store_hotplug_enable with an already-parsed integer input: normalize
to 0/1, no-op when unchanged, otherwise run cpus_hotplugging and record
the new flag. -/
def store_hotplug_enable (n : Nat) (env : Env) (input : Int) (s : HState) :
    HState × List Nat :=
  let inp : Int := if 0 < input then 1 else 0
  if s.tuners.hotplug_enable = inp then (s, [])
  else
    let r := cpus_hotplugging n env (0 < inp) s
    ({ r.1 with tuners := { r.1.tuners with hotplug_enable := inp } }, r.2)

/-- cpu_online_work_fn: the bring-online executor calls cpu_up on every
hardware-offline core whose recorded flag is true. -/
def cpu_online_work_fn (n : Nat) (env : Env) (percpu : Nat → hotplug_cpuinfo) :
    List Nat :=
  (List.range n).filter (fun c => !env.cpu_online c && (percpu c).online)

/-- Result of the take-offline executor: the cores passed to cpu_down and
the per-cpu table after the defensive re-arm of cpu 0. -/
structure OfflineResult where
  downed : List Nat
  percpu : Nat → hotplug_cpuinfo

/-- cpu_offline_work_fn: call cpu_down on every hardware-online core whose
recorded flag is false (cpu 0 is not excluded by this scan); if exactly
one core remains online afterwards, re-arm cpu 0's up eligibility. -/
def cpu_offline_work_fn (n : Nat) (env : Env) (percpu : Nat → hotplug_cpuinfo) :
    OfflineResult :=
  let downed := (List.range n).filter (fun c => env.cpu_online c && (percpu c).online == false)
  let onlineAfter :=
    ((List.range n).filter (fun c => env.cpu_online c && !((percpu c).online == false))).length
  { downed := downed,
    percpu := if onlineAfter = 1 then updInfo percpu 0 ({ percpu 0 with up_cpu := 1 }) else percpu }

/-- Iterated ticks: state after t firings of hotplug_work_fn, where the
environment of tick number t+1 is envs t. -/
def tickIter (n : Nat) (envs : Nat → Env) (s : HState) : Nat → HState
  | 0 => s
  | t + 1 => (hotplug_work_fn n (envs t) (tickIter n envs s t)).1

/-- A threshold table whose every row is row r of T: the table a
controller would effectively use if lookups were indexed by a fixed
online-count-derived row instead of the core index. -/
def rowConst (T : HotplugTables) (r : Nat) : HotplugTables :=
  { hotplug_load := fun _ j => T.hotplug_load r j,
    hotplug_freq := fun _ j => T.hotplug_freq r j,
    hotplug_rq := fun _ j => T.hotplug_rq r j }

/-- Spec-variant of the tick for claim C1: the threshold triples are
looked up by the number of cores currently online (row onlineCount - 1,
matching the sysfs row numbering), instead of by the core's own index as
the source does.  Used only to compare behaviors. -/
def hotplug_work_fn_onlineCountIndexed (n : Nat) (env : Env) (s : HState) :
    HState × TickOut :=
  hotplug_work_fn n env { s with tbl := rowConst s.tbl (countOnline n env - 1) }

/-- A threshold table with the source's default shape: identical rows,
load 30 down / 65 up, frequency 486000 down / 702000 up, run queue
200 down / 200 up. -/
def tbl0 : HotplugTables :=
  { hotplug_load := fun _ j => if j = 1 then 65 else 30,
    hotplug_freq := fun _ j => if j = 1 then 702000 else 486000,
    hotplug_rq := fun _ j => if j = 1 then 200 else 200 }

/-- Table for the C1 scenario: the down frequency threshold of row 1 is
very permissive (1000000) while every other row's is 0, so a tick whose
core-1 lookup hits row 1 behaves differently from one that hits the
row selected by the online-core count. -/
def tblC1 : HotplugTables :=
  { hotplug_load := fun _ j => if j = 1 then 65 else 30,
    hotplug_freq := fun c j => if j = 1 then 702000 else (if c = 1 then 1000000 else 0),
    hotplug_rq := fun _ j => if j = 1 then 300 else 200 }

/-- C1 scenario: cpus 0, 1, 2 online out of 4 (online count 3). -/
def envC1 : Env :=
  { cpu_online := fun c => decide (c < 3),
    wall_us := fun _ => 100, idle_us := fun _ => 50,
    acpu_freq := fun _ => 500, quick_freq := fun _ => 500 }

/-- C1 scenario state: enabled, down_rate 1 so check_down holds, records
in sync with hardware. -/
def sC1 : HState :=
  { tuners := ⟨60000, 1, 10, 1, 4, 0⟩, tbl := tblC1,
    percpu := fun c => ⟨0, 0, decide (c < 3), 1, -1⟩,
    hotplugging_rate := 0, rq := ⟨0, 0, 0⟩,
    tickPending := true, rqPending := true,
    onlineWorkPending := false, offlineWorkPending := false }

/-- Table with a permissive down frequency threshold on every row. -/
def tblC2 : HotplugTables :=
  { hotplug_load := fun _ j => if j = 1 then 65 else 30,
    hotplug_freq := fun _ j => if j = 1 then 702000 else 1000000,
    hotplug_rq := fun _ j => if j = 1 then 300 else 200 }

/-- C2 scenario: all four cpus online in hardware. -/
def envC2 : Env :=
  { cpu_online := fun _ => true,
    wall_us := fun _ => 100, idle_us := fun _ => 50,
    acpu_freq := fun _ => 500, quick_freq := fun _ => 500 }

/-- C2 scenario state: cpu 2's recorded flag disagrees with hardware
(drift), while cpu 1 qualifies for the down selection. -/
def sC2 : HState :=
  { tuners := ⟨60000, 1, 10, 1, 4, 0⟩, tbl := tblC2,
    percpu := fun c => ⟨0, 0, !(c == 2), 1, -1⟩,
    hotplugging_rate := 0, rq := ⟨0, 0, 0⟩,
    tickPending := true, rqPending := true,
    onlineWorkPending := false, offlineWorkPending := false }

/-- C3 scenario: cpus 0, 1, 2 online; cpu 1 has load 10 (wall 100, idle
90), frequency 700000 above the down threshold 486000, and the sampler
average 300 is above the down run-queue threshold 200. -/
def envC3 : Env :=
  { cpu_online := fun c => decide (c < 3),
    wall_us := fun _ => 100, idle_us := fun c => if c = 1 then 90 else 10,
    acpu_freq := fun _ => 700000, quick_freq := fun _ => 700000 }

/-- C3 scenario state: enabled, check_down holds, default thresholds. -/
def sC3 : HState :=
  { tuners := ⟨60000, 1, 10, 1, 4, 0⟩, tbl := tbl0,
    percpu := fun c => ⟨0, 0, decide (c < 3), 1, -1⟩,
    hotplugging_rate := 0, rq := ⟨300, 0, 0⟩,
    tickPending := true, rqPending := true,
    onlineWorkPending := false, offlineWorkPending := false }

/-- C4 counterexample scenario: cpu 1 is offline, cpus 0, 2, 3 online;
cpu 0 has low load (idle 80) and cpu 2 high load (idle 5), so the
up trigger fires at cpu 2, after the only offline core (cpu 1) has
already been iterated past. -/
def envC4 : Env :=
  { cpu_online := fun c => !(c == 1),
    wall_us := fun _ => 100, idle_us := fun c => if c = 0 then 80 else 5,
    acpu_freq := fun _ => 800000, quick_freq := fun _ => 800000 }

/-- C4 counterexample state: enabled, up_rate 1 so check_up holds. -/
def sC4 : HState :=
  { tuners := ⟨60000, 1, 1, 20, 4, 0⟩, tbl := tbl0,
    percpu := fun c => ⟨0, 0, !(c == 1), 1, -1⟩,
    hotplugging_rate := 0, rq := ⟨300, 0, 0⟩,
    tickPending := true, rqPending := true,
    onlineWorkPending := false, offlineWorkPending := false }

/-- C4 witness scenario: same topology but cpu 0 is the high-load core,
so the trigger fires at cpu 0 and the offline cpu 1 is marked online. -/
def envC4w : Env :=
  { cpu_online := fun c => !(c == 1),
    wall_us := fun _ => 100, idle_us := fun c => if c = 0 then 5 else 80,
    acpu_freq := fun _ => 800000, quick_freq := fun _ => 800000 }

/-- C4 witness state. -/
def sC4w : HState :=
  { tuners := ⟨60000, 1, 1, 20, 4, 0⟩, tbl := tbl0,
    percpu := fun c => ⟨0, 0, !(c == 1), 1, -1⟩,
    hotplugging_rate := 0, rq := ⟨300, 0, 0⟩,
    tickPending := true, rqPending := true,
    onlineWorkPending := false, offlineWorkPending := false }

/-- C7 scenario: all four cpus online, low frequency and low run-queue
average, so down selection qualifies by the frequency disjunct. -/
def envC7 : Env :=
  { cpu_online := fun _ => true,
    wall_us := fun _ => 100, idle_us := fun _ => 50,
    acpu_freq := fun _ => 300000, quick_freq := fun _ => 300000 }

/-- C7 scenario state: maxcoreslimit 2, so the down floor index is 1 and
cpus 2 and 3 are the candidates. -/
def sC7 : HState :=
  { tuners := ⟨60000, 1, 10, 1, 2, 0⟩, tbl := tbl0,
    percpu := fun _ => ⟨0, 0, true, 1, -1⟩,
    hotplugging_rate := 0, rq := ⟨100, 0, 0⟩,
    tickPending := true, rqPending := true,
    onlineWorkPending := false, offlineWorkPending := false }

/-- C8 scenario environment. -/
def envC8 : Env :=
  { cpu_online := fun _ => true,
    wall_us := fun _ => 100, idle_us := fun _ => 50,
    acpu_freq := fun _ => 300000, quick_freq := fun _ => 300000 }

/-- C8 scenario state: enabled, with a pending tick and an in-flight
online executor work item at the moment disable is requested. -/
def sC8 : HState :=
  { tuners := ⟨60000, 1, 10, 20, 4, 0⟩, tbl := tbl0,
    percpu := fun _ => ⟨0, 0, true, 1, -1⟩,
    hotplugging_rate := 5, rq := ⟨100, 0, 0⟩,
    tickPending := true, rqPending := true,
    onlineWorkPending := true, offlineWorkPending := false }

/-- C9 witness environment. -/
def envC9 : Env :=
  { cpu_online := fun _ => true,
    wall_us := fun _ => 100, idle_us := fun _ => 50,
    acpu_freq := fun _ => 800000, quick_freq := fun _ => 800000 }

/-- C9 witness state: freshly enabled (tick counter 0), up_rate 10,
down_rate 20. -/
def sC9 : HState :=
  { tuners := ⟨60000, 1, 10, 20, 4, 0⟩, tbl := tbl0,
    percpu := fun _ => ⟨0, 0, true, 1, -1⟩,
    hotplugging_rate := 0, rq := ⟨0, 0, 0⟩,
    tickPending := true, rqPending := true,
    onlineWorkPending := false, offlineWorkPending := false }

/-- Invariant behind the at-most-one-up / at-most-one-down rule:
schedule_down_cpu counts down the down selections and schedule_up_cpu
tracks the trigger/marking progression (1 before the trigger, 0 between
trigger and marking, -1 after the single marking). -/
def selInv (acc : LoopAcc) : Prop :=
  (acc.schedule_down_cpu = 1 - (acc.downSelected.length : Int)
    ∧ acc.downSelected.length ≤ 1)
  ∧ ((acc.onlineMarked = [] ∧ (acc.schedule_up_cpu = 0 ∨ acc.schedule_up_cpu = 1))
    ∨ (acc.onlineMarked.length = 1 ∧ acc.schedule_up_cpu = -1))

/-- Positional loop invariant for the up-trigger/up-marking sequence of a
drift-free tick, after the cores below index i have been processed. -/
def upSeqInv (env : Env) (s : HState) (n i : Nat) (a : LoopAcc) : Prop :=
  a.other = false
  ∧ (∀ c, i ≤ c → c < n → (a.percpu c).online = (s.percpu c).online)
  ∧ ((a.schedule_up_cpu = 1 ∧ a.up_cpu_req = -1 ∧ a.onlineMarked = [])
    ∨ (a.schedule_up_cpu = 0 ∧ a.onlineMarked = []
        ∧ ∃ t0 : Nat, a.up_cpu_req = (t0 : Int) ∧ t0 < i ∧ env.cpu_online t0 = true
            ∧ ∀ c, t0 < c → c < i → env.cpu_online c = true)
    ∨ (a.schedule_up_cpu = -1
        ∧ ∃ t0 m : Nat, a.up_cpu_req = (t0 : Int) ∧ a.onlineMarked = [m] ∧ t0 < m ∧ m < i
            ∧ env.cpu_online m = false ∧ env.cpu_online t0 = true
            ∧ (∀ c, t0 < c → c < m → env.cpu_online c = true)
            ∧ (a.percpu m).up_by_cpu = (t0 : Int)))

/-- C10 witness state: disabled controller with a still-pending tick. -/
def sC10 : HState :=
  { tuners := ⟨60000, 0, 10, 20, 4, 0⟩, tbl := tbl0,
    percpu := fun _ => ⟨0, 0, true, 1, -1⟩,
    hotplugging_rate := 7, rq := ⟨50, 0, 0⟩,
    tickPending := true, rqPending := false,
    onlineWorkPending := false, offlineWorkPending := false }

end Alucard

namespace Alucard

theorem updInfo_self (t : Nat → hotplug_cpuinfo) (i : Nat) (v : hotplug_cpuinfo) :
    updInfo t i v i = v := by
  simp [updInfo]

theorem updInfo_ne (t : Nat → hotplug_cpuinfo) (i j : Nat) (v : hotplug_cpuinfo)
    (h : j ≠ i) : updInfo t i v j = t j := by
  simp [updInfo, h]

theorem updInfo_preserves_online (t : Nat → hotplug_cpuinfo) (i : Nat)
    (v : hotplug_cpuinfo) (c : Nat) (hv : v.online = (t i).online) :
    ((updInfo t i v) c).online = (t c).online := by
  unfold updInfo
  split_ifs with h
  · subst h; exact hv
  · rfl

theorem updInfo_preserves_up_by (t : Nat → hotplug_cpuinfo) (i : Nat)
    (v : hotplug_cpuinfo) (c : Nat) (hv : v.up_by_cpu = (t i).up_by_cpu) :
    ((updInfo t i v) c).up_by_cpu = (t c).up_by_cpu := by
  unfold updInfo
  split_ifs with h
  · subst h; exact hv
  · rfl

@[simp] theorem driftPhase_downSelected (acc : LoopAcc) (cpu : Nat) (o : Bool) :
    (driftPhase acc cpu o).downSelected = acc.downSelected := by
  simp only [driftPhase]; split_ifs <;> rfl

@[simp] theorem driftPhase_onlineMarked (acc : LoopAcc) (cpu : Nat) (o : Bool) :
    (driftPhase acc cpu o).onlineMarked = acc.onlineMarked := by
  simp only [driftPhase]; split_ifs <;> rfl

@[simp] theorem driftPhase_schedule_up (acc : LoopAcc) (cpu : Nat) (o : Bool) :
    (driftPhase acc cpu o).schedule_up_cpu = acc.schedule_up_cpu := by
  simp only [driftPhase]; split_ifs <;> rfl

@[simp] theorem driftPhase_schedule_down (acc : LoopAcc) (cpu : Nat) (o : Bool) :
    (driftPhase acc cpu o).schedule_down_cpu = acc.schedule_down_cpu := by
  simp only [driftPhase]; split_ifs <;> rfl

@[simp] theorem driftPhase_up_cpu_req (acc : LoopAcc) (cpu : Nat) (o : Bool) :
    (driftPhase acc cpu o).up_cpu_req = acc.up_cpu_req := by
  simp only [driftPhase]; split_ifs <;> rfl

@[simp] theorem driftPhase_other (acc : LoopAcc) (cpu : Nat) (o : Bool) :
    (driftPhase acc cpu o).other
      = (acc.other || decide ((acc.percpu cpu).online ≠ o)) := by
  simp only [driftPhase]
  split_ifs with h1 h2 h3 <;> simp [h1]

@[simp] theorem driftPhase_percpu_online (acc : LoopAcc) (cpu : Nat) (o : Bool) (c : Nat) :
    ((driftPhase acc cpu o).percpu c).online = (acc.percpu c).online := by
  simp only [driftPhase]
  split_ifs with h1 h2 h3
  · rfl
  · dsimp only
    set ub := (acc.percpu cpu).up_by_cpu.toNat with hub
    by_cases hc : c = cpu
    · subst hc
      rw [updInfo_self]
      dsimp only
      by_cases hcb : c = ub
      · rw [hcb, updInfo_self]
        dsimp only
        rw [← hcb, updInfo_self]
      · rw [updInfo_ne _ _ _ _ hcb, updInfo_self]
    · rw [updInfo_ne _ _ _ _ hc]
      by_cases hb : c = ub
      · rw [hb, updInfo_self]
        dsimp only
        rw [← hb, updInfo_ne _ _ _ _ hc]
      · rw [updInfo_ne _ _ _ _ hb, updInfo_ne _ _ _ _ hc]
  · dsimp only
    by_cases hc : c = cpu
    · rw [hc, updInfo_self]
    · rw [updInfo_ne _ _ _ _ hc]
  · rfl

theorem driftPhase_percpu_up_by_ne (acc : LoopAcc) (cpu : Nat) (o : Bool) (c : Nat)
    (h : c ≠ cpu) :
    ((driftPhase acc cpu o).percpu c).up_by_cpu = (acc.percpu c).up_by_cpu := by
  simp only [driftPhase]
  split_ifs with h1 h2 h3
  · rfl
  · dsimp only
    rw [updInfo_ne _ _ _ _ h]
    by_cases hb : c = (acc.percpu cpu).up_by_cpu.toNat
    · rw [hb, updInfo_self]
      dsimp only
      rw [updInfo_ne]
      rw [hb] at h
      exact h
    · rw [updInfo_ne _ _ _ _ hb, updInfo_ne _ _ _ _ h]
  · dsimp only
    rw [updInfo_ne _ _ _ _ h]
  · rfl

@[simp] theorem upEvalPhase_downSelected (ctx : TickCtx) (acc : LoopAcc) (cpu : Nat)
    (o : Bool) (l : Int) (f : Nat) :
    (upEvalPhase ctx acc cpu o l f).downSelected = acc.downSelected := by
  simp only [upEvalPhase]; split_ifs <;> rfl

@[simp] theorem upEvalPhase_onlineMarked (ctx : TickCtx) (acc : LoopAcc) (cpu : Nat)
    (o : Bool) (l : Int) (f : Nat) :
    (upEvalPhase ctx acc cpu o l f).onlineMarked = acc.onlineMarked := by
  simp only [upEvalPhase]; split_ifs <;> rfl

@[simp] theorem upEvalPhase_schedule_down (ctx : TickCtx) (acc : LoopAcc) (cpu : Nat)
    (o : Bool) (l : Int) (f : Nat) :
    (upEvalPhase ctx acc cpu o l f).schedule_down_cpu = acc.schedule_down_cpu := by
  simp only [upEvalPhase]; split_ifs <;> rfl

@[simp] theorem upEvalPhase_other (ctx : TickCtx) (acc : LoopAcc) (cpu : Nat)
    (o : Bool) (l : Int) (f : Nat) :
    (upEvalPhase ctx acc cpu o l f).other = acc.other := by
  simp only [upEvalPhase]; split_ifs <;> rfl

@[simp] theorem upEvalPhase_percpu_online (ctx : TickCtx) (acc : LoopAcc) (cpu : Nat)
    (o : Bool) (l : Int) (f : Nat) (c : Nat) :
    ((upEvalPhase ctx acc cpu o l f).percpu c).online = (acc.percpu c).online := by
  simp only [upEvalPhase]
  split_ifs
  · by_cases hc : c = cpu <;> simp [updInfo, hc]
  · rfl
  · rfl

@[simp] theorem upEvalPhase_percpu_up_by (ctx : TickCtx) (acc : LoopAcc) (cpu : Nat)
    (o : Bool) (l : Int) (f : Nat) (c : Nat) :
    ((upEvalPhase ctx acc cpu o l f).percpu c).up_by_cpu = (acc.percpu c).up_by_cpu := by
  simp only [upEvalPhase]
  split_ifs
  · by_cases hc : c = cpu <;> simp [updInfo, hc]
  · rfl
  · rfl

@[simp] theorem downEvalPhase_onlineMarked (ctx : TickCtx) (acc : LoopAcc) (cpu : Nat)
    (o : Bool) (l : Int) (f : Nat) :
    (downEvalPhase ctx acc cpu o l f).onlineMarked = acc.onlineMarked := by
  simp only [downEvalPhase]; split_ifs <;> rfl

@[simp] theorem downEvalPhase_schedule_up (ctx : TickCtx) (acc : LoopAcc) (cpu : Nat)
    (o : Bool) (l : Int) (f : Nat) :
    (downEvalPhase ctx acc cpu o l f).schedule_up_cpu = acc.schedule_up_cpu := by
  simp only [downEvalPhase]; split_ifs <;> rfl

@[simp] theorem downEvalPhase_up_cpu_req (ctx : TickCtx) (acc : LoopAcc) (cpu : Nat)
    (o : Bool) (l : Int) (f : Nat) :
    (downEvalPhase ctx acc cpu o l f).up_cpu_req = acc.up_cpu_req := by
  simp only [downEvalPhase]; split_ifs <;> rfl

@[simp] theorem downEvalPhase_other (ctx : TickCtx) (acc : LoopAcc) (cpu : Nat)
    (o : Bool) (l : Int) (f : Nat) :
    (downEvalPhase ctx acc cpu o l f).other = acc.other := by
  simp only [downEvalPhase]; split_ifs <;> rfl

@[simp] theorem downEvalPhase_percpu_up_by (ctx : TickCtx) (acc : LoopAcc) (cpu : Nat)
    (o : Bool) (l : Int) (f : Nat) (c : Nat) :
    ((downEvalPhase ctx acc cpu o l f).percpu c).up_by_cpu = (acc.percpu c).up_by_cpu := by
  simp only [downEvalPhase]
  split_ifs
  · by_cases hc : c = cpu <;> simp [updInfo, hc]
  · rfl
  · rfl

theorem downEvalPhase_percpu_online_ne (ctx : TickCtx) (acc : LoopAcc) (cpu : Nat)
    (o : Bool) (l : Int) (f : Nat) (c : Nat) (h : c ≠ cpu) :
    ((downEvalPhase ctx acc cpu o l f).percpu c).online = (acc.percpu c).online := by
  simp only [downEvalPhase]
  split_ifs
  · simp [updInfo, h]
  · rfl
  · rfl

@[simp] theorem upMarkPhase_downSelected (acc : LoopAcc) (cpu : Nat) (o : Bool) :
    (upMarkPhase acc cpu o).downSelected = acc.downSelected := by
  simp only [upMarkPhase]; split_ifs <;> rfl

@[simp] theorem upMarkPhase_schedule_down (acc : LoopAcc) (cpu : Nat) (o : Bool) :
    (upMarkPhase acc cpu o).schedule_down_cpu = acc.schedule_down_cpu := by
  simp only [upMarkPhase]; split_ifs <;> rfl

@[simp] theorem upMarkPhase_other (acc : LoopAcc) (cpu : Nat) (o : Bool) :
    (upMarkPhase acc cpu o).other = acc.other := by
  simp only [upMarkPhase]; split_ifs <;> rfl

@[simp] theorem upMarkPhase_up_cpu_req (acc : LoopAcc) (cpu : Nat) (o : Bool) :
    (upMarkPhase acc cpu o).up_cpu_req = acc.up_cpu_req := by
  simp only [upMarkPhase]; split_ifs <;> rfl

theorem upMarkPhase_percpu_online_ne (acc : LoopAcc) (cpu : Nat) (o : Bool) (c : Nat)
    (h : c ≠ cpu) :
    ((upMarkPhase acc cpu o).percpu c).online = (acc.percpu c).online := by
  simp only [upMarkPhase]
  split_ifs
  · simp [updInfo, h]
  · rfl

theorem upMarkPhase_percpu_up_by_ne (acc : LoopAcc) (cpu : Nat) (o : Bool) (c : Nat)
    (h : c ≠ cpu) :
    ((upMarkPhase acc cpu o).percpu c).up_by_cpu = (acc.percpu c).up_by_cpu := by
  simp only [upMarkPhase]
  split_ifs
  · simp [updInfo, h]
  · rfl

theorem upEvalPhase_spec (ctx : TickCtx) (acc : LoopAcc) (cpu : Nat) (o : Bool)
    (l : Int) (f : Nat) :
    upEvalPhase ctx acc cpu o l f = acc
    ∨ (0 < acc.schedule_up_cpu ∧ o = true
       ∧ upEvalPhase ctx acc cpu o l f =
          { acc with
              schedule_up_cpu := acc.schedule_up_cpu - 1,
              percpu := updInfo acc.percpu cpu ({ acc.percpu cpu with up_cpu := 0 }),
              up_cpu_req := (cpu : Int) }) := by
  simp only [upEvalPhase]
  split_ifs with h1 h2
  · exact Or.inr ⟨h1.2.2.2.1, h1.2.2.2.2, rfl⟩
  · exact Or.inl rfl
  · exact Or.inl rfl

theorem downEvalPhase_spec (ctx : TickCtx) (acc : LoopAcc) (cpu : Nat) (o : Bool)
    (l : Int) (f : Nat) :
    downEvalPhase ctx acc cpu o l f = acc
    ∨ (0 < acc.schedule_down_cpu ∧ u32ofInt ctx.downmaxcoreslimit < cpu
       ∧ downEvalPhase ctx acc cpu o l f =
          { acc with
              percpu := updInfo acc.percpu cpu ({ acc.percpu cpu with online := false }),
              schedule_down_cpu := acc.schedule_down_cpu - 1,
              downSelected := acc.downSelected ++ [cpu] }) := by
  simp only [downEvalPhase]
  split_ifs with h1 h2
  · exact Or.inr ⟨h1.2.2.2.1, h1.2.1, rfl⟩
  · exact Or.inl rfl
  · exact Or.inl rfl

theorem upMarkPhase_spec (acc : LoopAcc) (cpu : Nat) (o : Bool) :
    (¬(acc.schedule_up_cpu = 0 ∧ o = false) ∧ upMarkPhase acc cpu o = acc)
    ∨ (acc.schedule_up_cpu = 0 ∧ o = false
       ∧ upMarkPhase acc cpu o =
          { acc with
              percpu := updInfo acc.percpu cpu
                ({ acc.percpu cpu with online := true, up_by_cpu := acc.up_cpu_req }),
              schedule_up_cpu := acc.schedule_up_cpu - 1,
              onlineMarked := acc.onlineMarked ++ [cpu] }) := by
  simp only [upMarkPhase]
  split_ifs with h1
  · exact Or.inr ⟨h1.1, h1.2, rfl⟩
  · exact Or.inl ⟨h1, rfl⟩

theorem downEvalPhase_down_sub (ctx : TickCtx) (acc : LoopAcc) (cpu : Nat) (o : Bool)
    (l : Int) (f : Nat) :
    ∀ x ∈ (downEvalPhase ctx acc cpu o l f).downSelected,
      x ∈ acc.downSelected ∨ x = cpu := by
  rcases downEvalPhase_spec ctx acc cpu o l f with heq | ⟨h1, h2, heq⟩ <;> rw [heq] <;>
    intro x hx
  · exact Or.inl hx
  · dsimp only at hx
    rcases List.mem_append.mp hx with hm | hm
    · exact Or.inl hm
    · exact Or.inr (List.mem_singleton.mp hm)

theorem upMarkPhase_online_sub (acc : LoopAcc) (cpu : Nat) (o : Bool) :
    ∀ x ∈ (upMarkPhase acc cpu o).onlineMarked,
      x ∈ acc.onlineMarked ∨ x = cpu := by
  rcases upMarkPhase_spec acc cpu o with ⟨hnc, heq⟩ | ⟨h1, h2, heq⟩ <;> rw [heq] <;> intro x hx
  · exact Or.inl hx
  · dsimp only at hx
    rcases List.mem_append.mp hx with hm | hm
    · exact Or.inl hm
    · exact Or.inr (List.mem_singleton.mp hm)

theorem hotplugLoopBody_of_other (ctx : TickCtx) (acc : LoopAcc) (cpu : Nat)
    (h : acc.other = true) :
    (hotplugLoopBody ctx acc cpu).other = true
    ∧ (hotplugLoopBody ctx acc cpu).downSelected = acc.downSelected
    ∧ (hotplugLoopBody ctx acc cpu).onlineMarked = acc.onlineMarked
    ∧ (hotplugLoopBody ctx acc cpu).schedule_up_cpu = acc.schedule_up_cpu
    ∧ (hotplugLoopBody ctx acc cpu).schedule_down_cpu = acc.schedule_down_cpu
    ∧ (hotplugLoopBody ctx acc cpu).up_cpu_req = acc.up_cpu_req := by
  simp only [hotplugLoopBody]
  split_ifs with ho
  · exact ⟨ho, by simp, by simp, by simp, by simp, by simp⟩
  · exfalso
    apply ho
    simp [h]

theorem hotplugLoopBody_drift (ctx : TickCtx) (acc : LoopAcc) (cpu : Nat)
    (h : (acc.percpu cpu).online ≠ ctx.env.cpu_online cpu) :
    (hotplugLoopBody ctx acc cpu).other = true
    ∧ (hotplugLoopBody ctx acc cpu).downSelected = acc.downSelected
    ∧ (hotplugLoopBody ctx acc cpu).onlineMarked = acc.onlineMarked
    ∧ (hotplugLoopBody ctx acc cpu).schedule_up_cpu = acc.schedule_up_cpu
    ∧ (hotplugLoopBody ctx acc cpu).schedule_down_cpu = acc.schedule_down_cpu
    ∧ (hotplugLoopBody ctx acc cpu).up_cpu_req = acc.up_cpu_req := by
  simp only [hotplugLoopBody]
  split_ifs with ho
  · exact ⟨ho, by simp, by simp, by simp, by simp, by simp⟩
  · exfalso
    apply ho
    simp [updInfo, h]

theorem hotplugLoopBody_nodrift (ctx : TickCtx) (acc : LoopAcc) (cpu : Nat)
    (h : (acc.percpu cpu).online = ctx.env.cpu_online cpu) (ho : acc.other = false) :
    ∃ (L : Int) (F : Nat) (info1 : hotplug_cpuinfo),
      info1.online = (acc.percpu cpu).online
      ∧ info1.up_by_cpu = (acc.percpu cpu).up_by_cpu
      ∧ hotplugLoopBody ctx acc cpu =
          upMarkPhase (downEvalPhase ctx (upEvalPhase ctx
              (driftPhase { acc with percpu := updInfo acc.percpu cpu info1 } cpu
                (ctx.env.cpu_online cpu)) cpu (ctx.env.cpu_online cpu) L F)
            cpu (ctx.env.cpu_online cpu) L F) cpu (ctx.env.cpu_online cpu) := by
  refine ⟨computeLoad (ctx.env.cpu_online cpu)
      (u32sub (ctx.env.wall_us cpu % 2^64) (acc.percpu cpu).prev_cpu_wall)
      (u32sub (ctx.env.idle_us cpu % 2^64) (acc.percpu cpu).prev_cpu_idle),
    computeFreq ctx cpu (ctx.env.cpu_online cpu)
      (u32sub (ctx.env.wall_us cpu % 2^64) (acc.percpu cpu).prev_cpu_wall)
      (u32sub (ctx.env.idle_us cpu % 2^64) (acc.percpu cpu).prev_cpu_idle),
    { acc.percpu cpu with
        prev_cpu_wall := ctx.env.wall_us cpu % 2^64,
        prev_cpu_idle := ctx.env.idle_us cpu % 2^64 }, rfl, rfl, ?_⟩
  simp only [hotplugLoopBody]
  split_ifs with hsplit
  · exfalso
    rw [driftPhase_other] at hsplit
    simp [updInfo, h, ho] at hsplit
  · rfl

theorem hotplugLoopBody_percpu_online_ne (ctx : TickCtx) (acc : LoopAcc) (cpu c : Nat)
    (h : c ≠ cpu) :
    ((hotplugLoopBody ctx acc cpu).percpu c).online = (acc.percpu c).online := by
  simp only [hotplugLoopBody]
  split_ifs
  · simp [updInfo, h]
  · rw [upMarkPhase_percpu_online_ne _ _ _ _ h, downEvalPhase_percpu_online_ne _ _ _ _ _ _ _ h]
    simp [updInfo, h]

theorem hotplugLoopBody_down_sub (ctx : TickCtx) (acc : LoopAcc) (cpu : Nat) :
    ∀ x ∈ (hotplugLoopBody ctx acc cpu).downSelected,
      x ∈ acc.downSelected ∨ x = cpu := by
  simp only [hotplugLoopBody]
  split_ifs
  · intro x hx
    simp only [driftPhase_downSelected] at hx
    exact Or.inl hx
  · intro x hx
    rw [upMarkPhase_downSelected] at hx
    rcases downEvalPhase_down_sub _ _ _ _ _ _ x hx with hm | hm
    · simp only [upEvalPhase_downSelected, driftPhase_downSelected] at hm
      exact Or.inl hm
    · exact Or.inr hm

theorem hotplugLoopBody_online_sub (ctx : TickCtx) (acc : LoopAcc) (cpu : Nat) :
    ∀ x ∈ (hotplugLoopBody ctx acc cpu).onlineMarked,
      x ∈ acc.onlineMarked ∨ x = cpu := by
  simp only [hotplugLoopBody]
  split_ifs
  · intro x hx
    simp only [driftPhase_onlineMarked] at hx
    exact Or.inl hx
  · intro x hx
    rcases upMarkPhase_online_sub _ _ _ x hx with hm | hm
    · simp only [downEvalPhase_onlineMarked, upEvalPhase_onlineMarked,
        driftPhase_onlineMarked] at hm
      exact Or.inl hm
    · exact Or.inr hm

theorem foldl_induct {α β : Type} (f : α → β → α) (P : α → Prop)
    (h : ∀ a b, P a → P (f a b)) :
    ∀ (l : List β) (a : α), P a → P (l.foldl f a)
  | [], _, ha => ha
  | b :: l, a, ha => foldl_induct f P h l (f a b) (h a b ha)

theorem foldl_range_induct (f : LoopAcc → Nat → LoopAcc) (P : Nat → LoopAcc → Prop)
    (h : ∀ i a, P i a → P (i + 1) (f a i)) :
    ∀ (k i : Nat) (a : LoopAcc), P i a → P (i + k) ((List.range' i k).foldl f a)
  | 0, i, a, ha => ha
  | k + 1, i, a, ha => by
      rw [List.range'_succ]
      have heq : i + (k + 1) = (i + 1) + k := by omega
      rw [heq]
      exact foldl_range_induct f P h k (i + 1) (f a i) (h i a ha)

theorem tick_disabled (n : Nat) (env : Env) (s : HState)
    (h : ¬ 0 < s.tuners.hotplug_enable) :
    hotplug_work_fn n env s =
      ({ s with tickPending := false },
       { downSelected := [], onlineMarked := [], check_up := false, check_down := false,
         up_cpu_req := -1, drift := false, rescheduled := false }) := by
  simp only [hotplug_work_fn]
  rw [if_neg h]

theorem tick_enabled_out (n : Nat) (env : Env) (s : HState)
    (h : 0 < s.tuners.hotplug_enable) :
    (hotplug_work_fn n env s).2 =
      { downSelected := (tickLoop n env s).downSelected,
        onlineMarked := (tickLoop n env s).onlineMarked,
        check_up := check_up_of s, check_down := check_down_of s,
        up_cpu_req := (tickLoop n env s).up_cpu_req,
        drift := (tickLoop n env s).other, rescheduled := true } := by
  simp only [hotplug_work_fn]
  rw [if_pos h]

theorem tick_enabled_state (n : Nat) (env : Env) (s : HState)
    (h : 0 < s.tuners.hotplug_enable) :
    (hotplug_work_fn n env s).1 =
      { s with
          percpu := tickPercpu2 n env
            (if (tickLoop n env s).other = true then
              resyncTable n env (tickLoop n env s).percpu
            else (tickLoop n env s).percpu),
          hotplugging_rate := tickRateWrap s,
          rq := (get_nr_run_avg s.rq).2,
          tickPending := true,
          offlineWorkPending := s.offlineWorkPending || !(tickLoop n env s).downSelected.isEmpty,
          onlineWorkPending := s.onlineWorkPending || !(tickLoop n env s).onlineMarked.isEmpty } := by
  simp only [hotplug_work_fn]
  rw [if_pos h]

/-- C10: when the tick handler fires while the enable flag is not positive,
it leaves the whole controller state unchanged (per-cpu records, tick
counter, sampler, tunables, executor-work flags), makes no selections,
and does not reschedule another tick, so the tick chain stops. -/
theorem C10_disabled_tick_is_inert (n : Nat) (env : Env) (s : HState)
    (h : s.tuners.hotplug_enable ≤ 0) :
    (hotplug_work_fn n env s).1 = { s with tickPending := false }
    ∧ (hotplug_work_fn n env s).2 =
        { downSelected := [], onlineMarked := [], check_up := false, check_down := false,
          up_cpu_req := -1, drift := false, rescheduled := false } := by
  rw [tick_disabled n env s (by omega)]
  exact ⟨rfl, rfl⟩

/-- Witness for C10 at a concrete disabled state with a pending tick. -/
theorem C10_disabled_tick_is_inert_witness :
    sC10.tuners.hotplug_enable ≤ 0
    ∧ ((hotplug_work_fn 4 envC9 sC10).1 = { sC10 with tickPending := false }
       ∧ (hotplug_work_fn 4 envC9 sC10).2 =
          { downSelected := [], onlineMarked := [], check_up := false, check_down := false,
            up_cpu_req := -1, drift := false, rescheduled := false }) :=
  ⟨by decide, C10_disabled_tick_is_inert 4 envC9 sC10 (by decide)⟩

/-- Counterexample to C5: on the sample sequence (instant 200 at 10 ms,
then instant 400 at 10 ms) with a read-and-reset after each sample, the
second read returns 400, not the 300 the claim states.  The first sample
after a reset has elapsed time 0 (last_update_time is initialized to the
sample time) and contributes nothing to total_time, and the read zeroes
the average which zeroes total_time on the next sample, so the weighting
formula is bypassed on the second sample as well. -/
theorem C5_counterexample :
    (get_nr_run_avg (rq_work_fn 10000000 2 start_rq_state)).1 = 200
    ∧ (get_nr_run_avg (rq_work_fn 20000000 4
        (get_nr_run_avg (rq_work_fn 10000000 2 start_rq_state)).2)).1 ≠ 300 := by
  constructor
  · rfl
  · decide

/-- C5 (amended): starting from a freshly reset sampler, feeding
instant 200 (2 runnable tasks, 10 ms after reset) and reading, then
instant 400 (10 ms later) and reading, yields 200 and then 400 (the
weighting formula is bypassed because accumulated total_time is still 0
at the second sample), and a further read with no intervening sample
yields 0. -/
theorem C5_sampler_reads :
    (get_nr_run_avg (rq_work_fn 10000000 2 start_rq_state)).1 = 200
    ∧ (get_nr_run_avg (rq_work_fn 20000000 4
        (get_nr_run_avg (rq_work_fn 10000000 2 start_rq_state)).2)).1 = 400
    ∧ (get_nr_run_avg (get_nr_run_avg (rq_work_fn 20000000 4
        (get_nr_run_avg (rq_work_fn 10000000 2 start_rq_state)).2)).2).1 = 0 := by
  exact ⟨rfl, rfl, rfl⟩

/-- Counterexample to C8: disabling the controller (writing 0 to the
enable tunable from an enabled state with a pending tick and a pending
online-executor work item) leaves the tick scheduled and the executor
work item pending: store_hotplug_enable and cpus_hotplugging never
cancel alucard_hotplug_work and never drain the executor works. -/
theorem C8_counterexample :
    (store_hotplug_enable 4 envC8 0 sC8).1.tickPending = true
    ∧ (store_hotplug_enable 4 envC8 0 sC8).1.onlineWorkPending = true := by
  exact ⟨rfl, rfl⟩

/-- C8 (amended): disabling via store_hotplug_enable cancels only the
run-queue sampler work, requests cpu_down for every online core except
core 0, clears the enable flag, and leaves the pending tick, both
executor work flags and the per-cpu records untouched; the still-pending
tick, when it later fires with the enable flag cleared, changes no state,
makes no selections and does not reschedule, so the tick chain stops by
itself rather than being cancelled inside disable. -/
theorem C8_disable_semantics (n : Nat) (env : Env) (s : HState) (input : Int)
    (hin : input ≤ 0) (hen : s.tuners.hotplug_enable ≠ 0) :
    (store_hotplug_enable n env input s).1.tuners.hotplug_enable = 0
    ∧ (store_hotplug_enable n env input s).1.rqPending = false
    ∧ (store_hotplug_enable n env input s).1.tickPending = s.tickPending
    ∧ (store_hotplug_enable n env input s).1.onlineWorkPending = s.onlineWorkPending
    ∧ (store_hotplug_enable n env input s).1.offlineWorkPending = s.offlineWorkPending
    ∧ (store_hotplug_enable n env input s).1.percpu = s.percpu
    ∧ (store_hotplug_enable n env input s).2
        = (List.range n).filter (fun c => env.cpu_online c && !(c == 0))
    ∧ (∀ env2 : Env,
        (hotplug_work_fn n env2 (store_hotplug_enable n env input s).1).1
          = { (store_hotplug_enable n env input s).1 with tickPending := false }
        ∧ (hotplug_work_fn n env2 (store_hotplug_enable n env input s).1).2.rescheduled
            = false
        ∧ (hotplug_work_fn n env2 (store_hotplug_enable n env input s).1).2.downSelected
            = []
        ∧ (hotplug_work_fn n env2 (store_hotplug_enable n env input s).1).2.onlineMarked
            = []) := by
  have h0 : ¬ (0:Int) < input := by omega
  have hst : store_hotplug_enable n env input s =
      ({ s with
          rqPending := false,
          tuners := { s.tuners with hotplug_enable := 0 } },
       (List.range n).filter (fun c => env.cpu_online c && !(c == 0))) := by
    simp only [store_hotplug_enable, if_neg h0]
    rw [if_neg (by simpa using hen)]
    simp [cpus_hotplugging]
  rw [hst]
  refine ⟨rfl, rfl, rfl, rfl, rfl, rfl, rfl, ?_⟩
  intro env2
  rw [tick_disabled n env2 _ (by norm_num)]
  exact ⟨rfl, rfl, rfl, rfl⟩

/-- Witness for C8's amended theorem at the concrete disable scenario. -/
theorem C8_disable_semantics_witness :
    ((0:Int) ≤ 0 ∧ sC8.tuners.hotplug_enable ≠ 0)
    ∧ (store_hotplug_enable 4 envC8 0 sC8).1.tuners.hotplug_enable = 0
    ∧ (store_hotplug_enable 4 envC8 0 sC8).1.tickPending = sC8.tickPending :=
  ⟨⟨by decide, by decide⟩,
   (C8_disable_semantics 4 envC8 sC8 0 (by decide) (by decide)).1,
   (C8_disable_semantics 4 envC8 sC8 0 (by decide) (by decide)).2.2.1⟩

/-- Counterexample to C1: with cpus 0, 1, 2 online (online count 3) and a
threshold table whose rows differ, the source tick down-selects cpu 1
using row 1 (the core's own index), while the variant that indexes the
matrix by the current online-core count (row 2) selects nothing: the
triples used in the comparisons are not the entries indexed by the
number of cores currently online. -/
theorem C1_counterexample :
    (hotplug_work_fn 4 envC1 sC1).2.downSelected = [1]
    ∧ (hotplug_work_fn_onlineCountIndexed 4 envC1 sC1).2.downSelected = [] := by
  exact ⟨rfl, rfl⟩

/-- Counterexample to C2: cpu 2's recorded online flag disagrees with the
hardware status, yet the tick still selects cpu 1 (an index below the
drifting core, evaluated before the disagreement is discovered) for
offlining: a drift tick does not always make zero up/down decisions. -/
theorem C2_counterexample :
    (sC2.percpu 2).online ≠ envC2.cpu_online 2
    ∧ (hotplug_work_fn 4 envC2 sC2).2.downSelected = [1] := by
  exact ⟨by decide, rfl⟩

/-- C3 (code bug): cpus 0, 1, 2 online (more than one core online), cpu 1
passes every down-eligibility gate (check_down, index above the floor,
online, load 10 defined, nothing selected yet) and its load 10 is below
the down load threshold 30, so the claim (and the spec) say cpu 1 is
selected for offlining; but the source compares the 0/1 result of
cpu_online(cpu) with 2 (dead code, never true), the frequency disjunct
fails (700000 above 486000, sampler average 300 above 200), and the tick
selects nothing. -/
theorem C3_down_low_load_not_selected :
    1 < countOnline 4 envC3
    ∧ (hotplug_work_fn 4 envC3 sC3).2.check_down = true
    ∧ (hotplug_work_fn 4 envC3 sC3).2.downSelected = [] := by
  exact ⟨by decide, rfl, rfl⟩

/-- Counterexample to C4: an up-trigger is recorded at cpu 2 and cpu 1 is
offline, yet no core at all is marked online: the core brought up is
chosen inside the per-cpu loop, so only offline cores with index greater
than the trigger's are candidates, and the lowest-indexed offline core
(cpu 1, below the trigger) is not chosen. -/
theorem C4_counterexample :
    (hotplug_work_fn 4 envC4 sC4).2.up_cpu_req = 2
    ∧ envC4.cpu_online 1 = false
    ∧ (hotplug_work_fn 4 envC4 sC4).2.onlineMarked = [] := by
  exact ⟨rfl, rfl, rfl⟩

/-- Counterexample to C7: with maxcoreslimit 2 on a 4-cpu system, the tick
down-selects cpu 2, a core whose index is at or above max_cores_online:
the down floor admits exactly the cores at or above the cap (they are the
ones that must be taken offline to respect it). -/
theorem C7_counterexample :
    (hotplug_work_fn 4 envC7 sC7).2.downSelected = [2]
    ∧ sC7.tuners.maxcoreslimit ≤ (2:Int) := by
  exact ⟨rfl, by decide⟩

end Alucard

namespace Alucard

theorem selInv_driftPhase (acc : LoopAcc) (cpu : Nat) (o : Bool)
    (h : selInv acc) : selInv (driftPhase acc cpu o) := by
  unfold selInv at *
  simpa using h

theorem selInv_upEval (ctx : TickCtx) (acc : LoopAcc) (cpu : Nat) (o : Bool)
    (l : Int) (f : Nat) (h : selInv acc) : selInv (upEvalPhase ctx acc cpu o l f) := by
  rcases upEvalPhase_spec ctx acc cpu o l f with heq | ⟨hpos, ho, heq⟩ <;> rw [heq]
  · exact h
  · obtain ⟨hd, hu⟩ := h
    refine ⟨hd, ?_⟩
    rcases hu with ⟨hm, hs⟩ | ⟨hm, hs⟩
    · refine Or.inl ⟨hm, ?_⟩
      show acc.schedule_up_cpu - 1 = 0 ∨ acc.schedule_up_cpu - 1 = 1
      omega
    · exact absurd hpos (by omega)

theorem selInv_downEval (ctx : TickCtx) (acc : LoopAcc) (cpu : Nat) (o : Bool)
    (l : Int) (f : Nat) (h : selInv acc) : selInv (downEvalPhase ctx acc cpu o l f) := by
  rcases downEvalPhase_spec ctx acc cpu o l f with heq | ⟨hpos, hgate, heq⟩ <;> rw [heq]
  · exact h
  · obtain ⟨⟨hd1, hd2⟩, hu⟩ := h
    have hlen : acc.downSelected.length = 0 := by omega
    refine ⟨⟨?_, ?_⟩, hu⟩
    · show acc.schedule_down_cpu - 1
        = 1 - ((acc.downSelected ++ [cpu]).length : Int)
      rw [List.length_append, hlen]
      simp only [List.length_singleton]
      omega
    · show (acc.downSelected ++ [cpu]).length ≤ 1
      rw [List.length_append, hlen]
      simp

theorem selInv_upMark (acc : LoopAcc) (cpu : Nat) (o : Bool)
    (h : selInv acc) : selInv (upMarkPhase acc cpu o) := by
  rcases upMarkPhase_spec acc cpu o with ⟨hnc, heq⟩ | ⟨hz, ho, heq⟩ <;> rw [heq]
  · exact h
  · obtain ⟨hd, hu⟩ := h
    rcases hu with ⟨hm, hs⟩ | ⟨hm, hs⟩
    · refine ⟨hd, Or.inr ⟨?_, ?_⟩⟩
      · show (acc.onlineMarked ++ [cpu]).length = 1
        rw [hm]
        rfl
      · show acc.schedule_up_cpu - 1 = -1
        omega
    · exact absurd hz (by omega)

theorem selInv_body (ctx : TickCtx) (acc : LoopAcc) (cpu : Nat)
    (h : selInv acc) : selInv (hotplugLoopBody ctx acc cpu) := by
  simp only [hotplugLoopBody]
  split_ifs
  · exact selInv_driftPhase _ _ _ h
  · exact selInv_upMark _ _ _
      (selInv_downEval _ _ _ _ _ _
        (selInv_upEval _ _ _ _ _ _ (selInv_driftPhase _ _ _ h)))

/-- C6: in every tick, whatever the loads, frequencies, sampler average
and threshold matrix, at most one core is selected to be brought online
and at most one core is selected to be taken offline. -/
theorem C6_at_most_one_transition (n : Nat) (env : Env) (s : HState) :
    (hotplug_work_fn n env s).2.downSelected.length ≤ 1
    ∧ (hotplug_work_fn n env s).2.onlineMarked.length ≤ 1 := by
  by_cases h : 0 < s.tuners.hotplug_enable
  · rw [tick_enabled_out n env s h]
    have H : selInv (tickLoop n env s) :=
      foldl_induct (hotplugLoopBody (tickCtx n env s)) selInv
        (fun a b hP => selInv_body _ a b hP) (List.range n) (tickAcc0 s)
        ⟨⟨rfl, by simp [tickAcc0]⟩, Or.inl ⟨rfl, Or.inr rfl⟩⟩
    obtain ⟨⟨hd1, hd2⟩, hu⟩ := H
    constructor
    · exact hd2
    · rcases hu with ⟨hm, _⟩ | ⟨hm, _⟩
      · show (tickLoop n env s).onlineMarked.length ≤ 1
        rw [hm]
        simp
      · show (tickLoop n env s).onlineMarked.length ≤ 1
        omega
  · rw [tick_disabled n env s h]
    exact ⟨by simp, by simp⟩

theorem downIdx_downEval (ctx : TickCtx) (acc : LoopAcc) (cpu : Nat) (o : Bool)
    (l : Int) (f : Nat)
    (h : ∀ c ∈ acc.downSelected, u32ofInt ctx.downmaxcoreslimit < c) :
    ∀ c ∈ (downEvalPhase ctx acc cpu o l f).downSelected,
      u32ofInt ctx.downmaxcoreslimit < c := by
  rcases downEvalPhase_spec ctx acc cpu o l f with heq | ⟨hpos, hgate, heq⟩ <;> rw [heq]
  · exact h
  · intro c hc
    dsimp only at hc
    rcases List.mem_append.mp hc with hm | hm
    · exact h c hm
    · rw [List.mem_singleton.mp hm]
      exact hgate

theorem downIdx_body (ctx : TickCtx) (acc : LoopAcc) (cpu : Nat)
    (h : ∀ c ∈ acc.downSelected, u32ofInt ctx.downmaxcoreslimit < c) :
    ∀ c ∈ (hotplugLoopBody ctx acc cpu).downSelected,
      u32ofInt ctx.downmaxcoreslimit < c := by
  simp only [hotplugLoopBody]
  split_ifs
  · intro c hc
    simp only [driftPhase_downSelected] at hc
    exact h c hc
  · intro c hc
    rw [upMarkPhase_downSelected] at hc
    refine downIdx_downEval _ _ _ _ _ _ ?_ c hc
    intro c2 hc2
    simp only [upEvalPhase_downSelected, driftPhase_downSelected] at hc2
    exact h c2 hc2

theorem online0_downEval (ctx : TickCtx) (acc : LoopAcc) (cpu : Nat) (o : Bool)
    (l : Int) (f : Nat) (h : (acc.percpu 0).online = true) :
    ((downEvalPhase ctx acc cpu o l f).percpu 0).online = true := by
  rcases downEvalPhase_spec ctx acc cpu o l f with heq | ⟨hpos, hgate, heq⟩ <;> rw [heq]
  · exact h
  · show ((updInfo acc.percpu cpu _ : Nat → hotplug_cpuinfo) 0).online = true
    rw [updInfo_ne _ _ _ _ (by omega)]
    exact h

theorem online0_upMark (acc : LoopAcc) (cpu : Nat) (o : Bool)
    (h : (acc.percpu 0).online = true) :
    ((upMarkPhase acc cpu o).percpu 0).online = true := by
  rcases upMarkPhase_spec acc cpu o with ⟨hnc, heq⟩ | ⟨hz, ho, heq⟩ <;> rw [heq]
  · exact h
  · show ((updInfo acc.percpu cpu _ : Nat → hotplug_cpuinfo) 0).online = true
    by_cases hc : (0:Nat) = cpu
    · rw [← hc, updInfo_self]
    · rw [updInfo_ne _ _ _ _ hc]
      exact h

theorem online0_body (ctx : TickCtx) (acc : LoopAcc) (cpu : Nat)
    (h : (acc.percpu 0).online = true) :
    ((hotplugLoopBody ctx acc cpu).percpu 0).online = true := by
  by_cases hc : (0:Nat) = cpu
  · subst hc
    simp only [hotplugLoopBody]
    split_ifs
    · rw [driftPhase_percpu_online]
      simpa [updInfo] using h
    · apply online0_upMark
      apply online0_downEval
      rw [upEvalPhase_percpu_online, driftPhase_percpu_online]
      simpa [updInfo] using h
  · rw [hotplugLoopBody_percpu_online_ne ctx acc cpu 0 hc]
    exact h

theorem tickPercpu2_online0 (n : Nat) (env : Env) (t : Nat → hotplug_cpuinfo)
    (h : (t 0).online = true) : ((tickPercpu2 n env t) 0).online = true := by
  unfold tickPercpu2
  split_ifs
  · rw [updInfo_self]
    exact h
  · exact h

theorem resyncTable_online0 (n : Nat) (env : Env) (t : Nat → hotplug_cpuinfo)
    (hhw : env.cpu_online 0 = true) (h : (t 0).online = true) :
    ((resyncTable n env t) 0).online = true := by
  unfold resyncTable
  split_ifs
  · exact hhw
  · exact h

/-- C7 (amended): the tick's down evaluation only ever selects cores with
index strictly above downmaxcoreslimit, hence never core 0 (but cores at
or above max_cores_online are exactly the eligible ones when the cap is
below the core count, contrary to the original claim); and as long as
hardware keeps core 0 online and its recorded flag is true, a tick leaves
core 0's recorded flag true, so the take-offline executor - which downs
exactly the hardware-online cores whose recorded flag is false and has no
explicit index-0 exclusion - does not offline core 0. -/
theorem C7_core0_never_down (n : Nat) (env : Env) (s : HState)
    (hrec : (s.percpu 0).online = true) (hhw : env.cpu_online 0 = true) :
    (∀ c ∈ (hotplug_work_fn n env s).2.downSelected,
        0 < c ∧ u32ofInt (downmaxcoreslimit n s.tuners) < c)
    ∧ ((hotplug_work_fn n env s).1.percpu 0).online = true
    ∧ 0 ∉ (cpu_offline_work_fn n env ((hotplug_work_fn n env s).1.percpu)).downed := by
  have key : (∀ c ∈ (hotplug_work_fn n env s).2.downSelected,
        0 < c ∧ u32ofInt (downmaxcoreslimit n s.tuners) < c)
      ∧ ((hotplug_work_fn n env s).1.percpu 0).online = true := by
    by_cases h : 0 < s.tuners.hotplug_enable
    · constructor
      · rw [tick_enabled_out n env s h]
        intro c hc
        have H : ∀ c2 ∈ (tickLoop n env s).downSelected,
            u32ofInt (tickCtx n env s).downmaxcoreslimit < c2 :=
          foldl_induct (hotplugLoopBody (tickCtx n env s))
            (fun a => ∀ c2 ∈ a.downSelected, u32ofInt (tickCtx n env s).downmaxcoreslimit < c2)
            (fun a b hP => downIdx_body _ a b hP) (List.range n) (tickAcc0 s)
            (by intro c2 hc2; simp [tickAcc0] at hc2)
        have hlt := H c hc
        exact ⟨by omega, hlt⟩
      · rw [tick_enabled_state n env s h]
        show ((tickPercpu2 n env _) 0).online = true
        apply tickPercpu2_online0
        have Hloop : ((tickLoop n env s).percpu 0).online = true :=
          foldl_induct (hotplugLoopBody (tickCtx n env s))
            (fun a => (a.percpu 0).online = true)
            (fun a b hP => online0_body _ a b hP) (List.range n) (tickAcc0 s) hrec
        split_ifs
        · exact resyncTable_online0 n env _ hhw Hloop
        · exact Hloop
    · rw [tick_disabled n env s h]
      exact ⟨by simp, hrec⟩
  refine ⟨key.1, key.2, ?_⟩
  intro hmem
  have hpred := (List.mem_filter.mp hmem).2
  rw [key.2] at hpred
  simp at hpred

/-- Witness for C7's amended theorem at the concrete maxcoreslimit-2
scenario; the theorem's conclusions then say the selected core 2 is above
the floor and core 0 stays recorded online. -/
theorem C7_core0_never_down_witness :
    ((sC7.percpu 0).online = true ∧ envC7.cpu_online 0 = true)
    ∧ ((hotplug_work_fn 4 envC7 sC7).1.percpu 0).online = true :=
  ⟨⟨by decide, by decide⟩,
   (C7_core0_never_down 4 envC7 sC7 (by decide) (by decide)).2.1⟩

theorem tickPercpu2_resync_fields (n : Nat) (env : Env) (t : Nat → hotplug_cpuinfo)
    (c : Nat) (hc : c < n) :
    ((tickPercpu2 n env (resyncTable n env t)) c).online = env.cpu_online c
    ∧ ((tickPercpu2 n env (resyncTable n env t)) c).up_cpu = 1
    ∧ ((tickPercpu2 n env (resyncTable n env t)) c).up_by_cpu = -1 := by
  unfold tickPercpu2
  split_ifs
  · by_cases h0 : c = 0
    · subst h0
      rw [updInfo_self]
      show ((resyncTable n env t 0).online = env.cpu_online 0)
        ∧ ((1:Int) = 1) ∧ ((resyncTable n env t 0).up_by_cpu = -1)
      unfold resyncTable
      rw [if_pos hc]
      exact ⟨rfl, rfl, rfl⟩
    · rw [updInfo_ne _ _ _ _ h0]
      unfold resyncTable
      rw [if_pos hc]
      exact ⟨rfl, rfl, rfl⟩
  · unfold resyncTable
    rw [if_pos hc]
    exact ⟨rfl, rfl, rfl⟩

/-- C2 (amended): when some core's recorded online flag disagrees with the
hardware status, the tick suppresses selections only from the first
disagreeing index onward: every core selected for offlining or marked
online this tick has an index strictly below any disagreeing index (so a
disagreement at index 0 suppresses everything, but cores before a later
disagreeing core are still evaluated, contrary to the original claim);
after the loop every recorded online flag is resynchronized to hardware
truth, every up_cpu eligibility is reset to 1 and every up_by_cpu back
reference to -1, and the tick reschedules. -/
theorem C2_drift_partial_skip_and_resync (n : Nat) (env : Env) (s : HState) (d : Nat)
    (hen : 0 < s.tuners.hotplug_enable) (hd : d < n)
    (hdrift : (s.percpu d).online ≠ env.cpu_online d) :
    (∀ c ∈ (hotplug_work_fn n env s).2.downSelected, c < d)
    ∧ (∀ c ∈ (hotplug_work_fn n env s).2.onlineMarked, c < d)
    ∧ (∀ c, c < n →
        ((hotplug_work_fn n env s).1.percpu c).online = env.cpu_online c
        ∧ ((hotplug_work_fn n env s).1.percpu c).up_cpu = 1
        ∧ ((hotplug_work_fn n env s).1.percpu c).up_by_cpu = -1)
    ∧ (hotplug_work_fn n env s).2.rescheduled = true := by
  have step : ∀ (i : Nat) (a : LoopAcc),
      ((∀ c ∈ a.downSelected, c < d) ∧ (∀ c ∈ a.onlineMarked, c < d)
        ∧ (if d < i then a.other = true else (a.percpu d).online = (s.percpu d).online)) →
      ((∀ c ∈ (hotplugLoopBody (tickCtx n env s) a i).downSelected, c < d)
        ∧ (∀ c ∈ (hotplugLoopBody (tickCtx n env s) a i).onlineMarked, c < d)
        ∧ (if d < i + 1 then (hotplugLoopBody (tickCtx n env s) a i).other = true
           else ((hotplugLoopBody (tickCtx n env s) a i).percpu d).online
              = (s.percpu d).online)) := by
    intro i a ⟨h1, h2, h3⟩
    by_cases hdi : d < i
    · rw [if_pos hdi] at h3
      obtain ⟨hot, hds, hms, _, _, _⟩ := hotplugLoopBody_of_other (tickCtx n env s) a i h3
      refine ⟨by rw [hds]; exact h1, by rw [hms]; exact h2, ?_⟩
      rw [if_pos (by omega)]
      exact hot
    · by_cases hde : d = i
      · subst hde
        rw [if_neg (lt_irrefl d)] at h3
        have hne : (a.percpu d).online ≠ (tickCtx n env s).env.cpu_online d := by
          rw [h3]
          exact hdrift
        obtain ⟨hot, hds, hms, _, _, _⟩ := hotplugLoopBody_drift (tickCtx n env s) a d hne
        refine ⟨by rw [hds]; exact h1, by rw [hms]; exact h2, ?_⟩
        rw [if_pos (by omega)]
        exact hot
      · rw [if_neg (by omega)] at h3
        refine ⟨?_, ?_, ?_⟩
        · intro c hc
          rcases hotplugLoopBody_down_sub (tickCtx n env s) a i c hc with hm | hm
          · exact h1 c hm
          · omega
        · intro c hc
          rcases hotplugLoopBody_online_sub (tickCtx n env s) a i c hc with hm | hm
          · exact h2 c hm
          · omega
        · rw [if_neg (by omega)]
          rw [hotplugLoopBody_percpu_online_ne (tickCtx n env s) a i d (by omega)]
          exact h3
  have H := foldl_range_induct (hotplugLoopBody (tickCtx n env s))
    (fun i a => (∀ c ∈ a.downSelected, c < d) ∧ (∀ c ∈ a.onlineMarked, c < d)
      ∧ (if d < i then a.other = true else (a.percpu d).online = (s.percpu d).online))
    step n 0 (tickAcc0 s)
    ⟨by intro c hc; simp [tickAcc0] at hc,
     by intro c hc; simp [tickAcc0] at hc,
     by rw [if_neg (by omega)]; rfl⟩
  have Hloop : (∀ c ∈ (tickLoop n env s).downSelected, c < d)
      ∧ (∀ c ∈ (tickLoop n env s).onlineMarked, c < d)
      ∧ (tickLoop n env s).other = true := by
    rw [show tickLoop n env s
        = (List.range' 0 n).foldl (hotplugLoopBody (tickCtx n env s)) (tickAcc0 s) from by
      rw [tickLoop, List.range_eq_range']]
    obtain ⟨g1, g2, g3⟩ := H
    rw [if_pos (by omega)] at g3
    exact ⟨g1, g2, g3⟩
  refine ⟨?_, ?_, ?_, ?_⟩
  · rw [tick_enabled_out n env s hen]
    exact Hloop.1
  · rw [tick_enabled_out n env s hen]
    exact Hloop.2.1
  · intro c hc
    rw [tick_enabled_state n env s hen]
    show ((tickPercpu2 n env
        (if (tickLoop n env s).other = true then resyncTable n env (tickLoop n env s).percpu
         else (tickLoop n env s).percpu)) c).online = env.cpu_online c
      ∧ ((tickPercpu2 n env _) c).up_cpu = 1
      ∧ ((tickPercpu2 n env _) c).up_by_cpu = -1
    rw [if_pos Hloop.2.2]
    exact tickPercpu2_resync_fields n env (tickLoop n env s).percpu c hc
  · rw [tick_enabled_out n env s hen]

/-- Witness for C2's amended theorem at the concrete drift scenario
(disagreement at index 2): the tick still reports cpu 1 in downSelected,
consistent with every selection being below index 2, and resynchronizes
all records. -/
theorem C2_drift_partial_skip_and_resync_witness :
    (0 < sC2.tuners.hotplug_enable ∧ 2 < 4
      ∧ (sC2.percpu 2).online ≠ envC2.cpu_online 2)
    ∧ (∀ c ∈ (hotplug_work_fn 4 envC2 sC2).2.downSelected, c < 2)
    ∧ (hotplug_work_fn 4 envC2 sC2).2.rescheduled = true :=
  ⟨⟨by decide, by decide, by decide⟩,
   (C2_drift_partial_skip_and_resync 4 envC2 sC2 2 (by decide) (by decide) (by decide)).1,
   (C2_drift_partial_skip_and_resync 4 envC2 sC2 2 (by decide) (by decide)
     (by decide)).2.2.2⟩

theorem upSeq_cases_step (ctx : TickCtx) (env : Env) (b : LoopAcc) (i : Nat)
    (L : Int) (F : Nat) (r : LoopAcc)
    (hr : r = upMarkPhase (downEvalPhase ctx (upEvalPhase ctx b i (env.cpu_online i) L F)
            i (env.cpu_online i) L F) i (env.cpu_online i))
    (hcase : (b.schedule_up_cpu = 1 ∧ b.up_cpu_req = -1 ∧ b.onlineMarked = [])
      ∨ (b.schedule_up_cpu = 0 ∧ b.onlineMarked = []
          ∧ ∃ t0 : Nat, b.up_cpu_req = (t0 : Int) ∧ t0 < i ∧ env.cpu_online t0 = true
              ∧ ∀ c, t0 < c → c < i → env.cpu_online c = true)
      ∨ (b.schedule_up_cpu = -1
          ∧ ∃ t0 m : Nat, b.up_cpu_req = (t0 : Int) ∧ b.onlineMarked = [m] ∧ t0 < m ∧ m < i
              ∧ env.cpu_online m = false ∧ env.cpu_online t0 = true
              ∧ (∀ c, t0 < c → c < m → env.cpu_online c = true)
              ∧ (b.percpu m).up_by_cpu = (t0 : Int))) :
    (r.schedule_up_cpu = 1 ∧ r.up_cpu_req = -1 ∧ r.onlineMarked = [])
    ∨ (r.schedule_up_cpu = 0 ∧ r.onlineMarked = []
        ∧ ∃ t0 : Nat, r.up_cpu_req = (t0 : Int) ∧ t0 < i + 1 ∧ env.cpu_online t0 = true
            ∧ ∀ c, t0 < c → c < i + 1 → env.cpu_online c = true)
    ∨ (r.schedule_up_cpu = -1
        ∧ ∃ t0 m : Nat, r.up_cpu_req = (t0 : Int) ∧ r.onlineMarked = [m] ∧ t0 < m ∧ m < i + 1
            ∧ env.cpu_online m = false ∧ env.cpu_online t0 = true
            ∧ (∀ c, t0 < c → c < m → env.cpu_online c = true)
            ∧ (r.percpu m).up_by_cpu = (t0 : Int)) := by
  rcases hcase with ⟨hs, hq, hm⟩ | ⟨hs, hm, t0, hq, ht0i, ht0on, hint⟩ |
    ⟨hs, t0, m, hq, hm, htm, hmi, hmoff, ht0on, hint, hub⟩
  · rcases upEvalPhase_spec ctx b i (env.cpu_online i) L F with hup | ⟨hpos, hon, hup⟩
    · rw [hup] at hr
      rcases upMarkPhase_spec (downEvalPhase ctx b i (env.cpu_online i) L F) i
          (env.cpu_online i) with ⟨hnc, hmk⟩ | ⟨hz, hoff, hmk⟩
      · rw [hmk] at hr
        subst hr
        exact Or.inl ⟨by rw [downEvalPhase_schedule_up]; exact hs,
          by rw [downEvalPhase_up_cpu_req]; exact hq,
          by rw [downEvalPhase_onlineMarked]; exact hm⟩
      · exfalso
        rw [downEvalPhase_schedule_up, hs] at hz
        exact one_ne_zero hz
    · rw [hup] at hr
      rcases upMarkPhase_spec (downEvalPhase ctx
            ({ b with
                schedule_up_cpu := b.schedule_up_cpu - 1,
                percpu := updInfo b.percpu i ({ b.percpu i with up_cpu := 0 }),
                up_cpu_req := (i : Int) }) i (env.cpu_online i) L F) i
            (env.cpu_online i) with ⟨hnc, hmk⟩ | ⟨hz, hoff, hmk⟩
      · rw [hmk] at hr
        subst hr
        refine Or.inr (Or.inl ⟨?_, ?_, i, ?_, by omega, hon, ?_⟩)
        · rw [downEvalPhase_schedule_up]
          show b.schedule_up_cpu - 1 = 0
          omega
        · rw [downEvalPhase_onlineMarked]
          exact hm
        · rw [downEvalPhase_up_cpu_req]
        · intro c h1 h2
          omega
      · exfalso
        rw [hon] at hoff
        exact absurd hoff (by simp)
  · rcases upEvalPhase_spec ctx b i (env.cpu_online i) L F with hup | ⟨hpos, hon, hup⟩
    swap
    · exfalso
      omega
    rw [hup] at hr
    rcases upMarkPhase_spec (downEvalPhase ctx b i (env.cpu_online i) L F) i
        (env.cpu_online i) with ⟨hnc, hmk⟩ | ⟨hz, hoff, hmk⟩
    · rw [hmk] at hr
      subst hr
      have hsch : (downEvalPhase ctx b i (env.cpu_online i) L F).schedule_up_cpu = 0 := by
        rw [downEvalPhase_schedule_up]
        exact hs
      have hotrue : env.cpu_online i = true := by
        by_contra hfalse
        exact hnc ⟨hsch, by simpa using hfalse⟩
      refine Or.inr (Or.inl ⟨hsch, ?_, t0, ?_, by omega, ht0on, ?_⟩)
      · rw [downEvalPhase_onlineMarked]
        exact hm
      · rw [downEvalPhase_up_cpu_req]
        exact hq
      · intro c h1 h2
        by_cases hci : c = i
        · rw [hci]
          exact hotrue
        · exact hint c h1 (by omega)
    · rw [hmk] at hr
      subst hr
      refine Or.inr (Or.inr ⟨?_, t0, i, ?_, ?_, ht0i, by omega, hoff, ht0on, hint, ?_⟩)
      · show (downEvalPhase ctx b i (env.cpu_online i) L F).schedule_up_cpu - 1 = -1
        rw [downEvalPhase_schedule_up, hs]
        decide
      · show (downEvalPhase ctx b i (env.cpu_online i) L F).up_cpu_req = (t0 : Int)
        rw [downEvalPhase_up_cpu_req]
        exact hq
      · show (downEvalPhase ctx b i (env.cpu_online i) L F).onlineMarked ++ [i] = [i]
        rw [downEvalPhase_onlineMarked, hm]
        rfl
      · show ((updInfo (downEvalPhase ctx b i (env.cpu_online i) L F).percpu i
            ({ (downEvalPhase ctx b i (env.cpu_online i) L F).percpu i with
                online := true,
                up_by_cpu := (downEvalPhase ctx b i (env.cpu_online i) L F).up_cpu_req }))
            i).up_by_cpu = (t0 : Int)
        rw [updInfo_self]
        show (downEvalPhase ctx b i (env.cpu_online i) L F).up_cpu_req = (t0 : Int)
        rw [downEvalPhase_up_cpu_req]
        exact hq
  · rcases upEvalPhase_spec ctx b i (env.cpu_online i) L F with hup | ⟨hpos, hon, hup⟩
    swap
    · exfalso
      omega
    rw [hup] at hr
    rcases upMarkPhase_spec (downEvalPhase ctx b i (env.cpu_online i) L F) i
        (env.cpu_online i) with ⟨hnc, hmk⟩ | ⟨hz, hoff, hmk⟩
    swap
    · exfalso
      rw [downEvalPhase_schedule_up, hs] at hz
      norm_num at hz
    rw [hmk] at hr
    subst hr
    refine Or.inr (Or.inr ⟨?_, t0, m, ?_, ?_, htm, by omega, hmoff, ht0on, hint, ?_⟩)
    · rw [downEvalPhase_schedule_up]
      exact hs
    · rw [downEvalPhase_up_cpu_req]
      exact hq
    · rw [downEvalPhase_onlineMarked]
      exact hm
    · rw [downEvalPhase_percpu_up_by]
      exact hub

theorem upSeqInv_body (n : Nat) (env : Env) (s : HState)
    (hsync : ∀ c, c < n → (s.percpu c).online = env.cpu_online c)
    (i : Nat) (hi : i < n) (a : LoopAcc)
    (h : upSeqInv env s n i a) :
    upSeqInv env s n (i + 1) (hotplugLoopBody (tickCtx n env s) a i) := by
  obtain ⟨hoth, hframe, hcase⟩ := h
  have hnd : (a.percpu i).online = (tickCtx n env s).env.cpu_online i := by
    show (a.percpu i).online = env.cpu_online i
    rw [hframe i le_rfl hi]
    exact hsync i hi
  obtain ⟨L, F, info1, hio, hib, heq⟩ :=
    hotplugLoopBody_nodrift (tickCtx n env s) a i hnd hoth
  rw [heq]
  refine ⟨?_, ?_, ?_⟩
  · rw [upMarkPhase_other, downEvalPhase_other, upEvalPhase_other, driftPhase_other]
    show (a.other || decide (((updInfo a.percpu i info1) i).online
        ≠ (tickCtx n env s).env.cpu_online i)) = false
    rw [updInfo_self, hio, hnd]
    simp [hoth]
  · intro c hc1 hc2
    have hci : c ≠ i := by omega
    rw [upMarkPhase_percpu_online_ne _ _ _ _ hci,
        downEvalPhase_percpu_online_ne _ _ _ _ _ _ _ hci,
        upEvalPhase_percpu_online, driftPhase_percpu_online]
    show ((updInfo a.percpu i info1) c).online = (s.percpu c).online
    rw [updInfo_ne _ _ _ _ hci]
    exact hframe c (by omega) hc2
  · have hbs : (driftPhase { a with percpu := updInfo a.percpu i info1 } i
        ((tickCtx n env s).env.cpu_online i)).schedule_up_cpu = a.schedule_up_cpu := by
      rw [driftPhase_schedule_up]
    have hbq : (driftPhase { a with percpu := updInfo a.percpu i info1 } i
        ((tickCtx n env s).env.cpu_online i)).up_cpu_req = a.up_cpu_req := by
      rw [driftPhase_up_cpu_req]
    have hbm : (driftPhase { a with percpu := updInfo a.percpu i info1 } i
        ((tickCtx n env s).env.cpu_online i)).onlineMarked = a.onlineMarked := by
      rw [driftPhase_onlineMarked]
    have hbu : ∀ m : Nat, m ≠ i →
        ((driftPhase { a with percpu := updInfo a.percpu i info1 } i
          ((tickCtx n env s).env.cpu_online i)).percpu m).up_by_cpu
          = (a.percpu m).up_by_cpu := by
      intro m hmi
      rw [driftPhase_percpu_up_by_ne _ _ _ _ hmi]
      show ((updInfo a.percpu i info1) m).up_by_cpu = (a.percpu m).up_by_cpu
      rw [updInfo_ne _ _ _ _ hmi]
    refine upSeq_cases_step (tickCtx n env s) env
      (driftPhase { a with percpu := updInfo a.percpu i info1 } i
        ((tickCtx n env s).env.cpu_online i)) i L F _ rfl ?_
    rcases hcase with ⟨h1, h2, h3⟩ | ⟨h1, h2, t0, h3, h4, h5, h6⟩ |
      ⟨h1, t0, m, h2, h3, h4, h5, h6, h7, h8, h9⟩
    · exact Or.inl ⟨by rw [hbs]; exact h1, by rw [hbq]; exact h2, by rw [hbm]; exact h3⟩
    · exact Or.inr (Or.inl ⟨by rw [hbs]; exact h1, by rw [hbm]; exact h2,
        t0, by rw [hbq]; exact h3, h4, h5, h6⟩)
    · exact Or.inr (Or.inr ⟨by rw [hbs]; exact h1, t0, m, by rw [hbq]; exact h2,
        by rw [hbm]; exact h3, h4, h5, h6, h7, h8,
        by rw [hbu m (by omega)]; exact h9⟩)

theorem tickPercpu2_percpu_up_by (n : Nat) (env : Env) (t : Nat → hotplug_cpuinfo)
    (c : Nat) : ((tickPercpu2 n env t) c).up_by_cpu = (t c).up_by_cpu := by
  unfold tickPercpu2
  split_ifs
  · by_cases h0 : c = 0
    · rw [h0, updInfo_self]
    · rw [updInfo_ne _ _ _ _ h0]
  · rfl

/-- C4 (amended): in a drift-free enabled tick, if no up-trigger was
recorded then no core is marked online; and if an up-trigger was recorded
at index t0 (an online core), then either no core at all is marked online
and every core after t0 is already online, or exactly one core m is
marked online, and m is the lowest-indexed offline core with index
strictly greater than the trigger's (not the lowest-indexed offline core
overall, contrary to the original claim), with up_by_cpu m recording
t0. -/
theorem C4_up_marking_follows_trigger (n : Nat) (env : Env) (s : HState)
    (hen : 0 < s.tuners.hotplug_enable)
    (hsync : ∀ c, c < n → (s.percpu c).online = env.cpu_online c) :
    ((hotplug_work_fn n env s).2.up_cpu_req = -1
      → (hotplug_work_fn n env s).2.onlineMarked = [])
    ∧ (∀ t0 : Nat, (hotplug_work_fn n env s).2.up_cpu_req = (t0 : Int) →
        ((hotplug_work_fn n env s).2.onlineMarked = []
            ∧ ∀ c, t0 < c → c < n → env.cpu_online c = true)
        ∨ (∃ m : Nat, (hotplug_work_fn n env s).2.onlineMarked = [m]
            ∧ env.cpu_online m = false ∧ t0 < m ∧ m < n
            ∧ (∀ c, t0 < c → c < m → env.cpu_online c = true)
            ∧ ((hotplug_work_fn n env s).1.percpu m).up_by_cpu = (t0 : Int)
            ∧ env.cpu_online t0 = true)) := by
  have step : ∀ (i : Nat) (a : LoopAcc),
      ((i ≤ n) → upSeqInv env s n i a) →
      ((i + 1 ≤ n) → upSeqInv env s n (i + 1) (hotplugLoopBody (tickCtx n env s) a i)) := by
    intro i a hP hle
    exact upSeqInv_body n env s hsync i (by omega) a (hP (by omega))
  have H := foldl_range_induct (hotplugLoopBody (tickCtx n env s))
      (fun i a => (i ≤ n) → upSeqInv env s n i a) step n 0 (tickAcc0 s)
      (fun _ => ⟨rfl, fun c _ _ => rfl, Or.inl ⟨rfl, rfl, rfl⟩⟩)
  have Hn : upSeqInv env s n n (tickLoop n env s) := by
    rw [show tickLoop n env s
        = (List.range' 0 n).foldl (hotplugLoopBody (tickCtx n env s)) (tickAcc0 s) from by
      rw [tickLoop, List.range_eq_range']]
    have H2 := H (by omega)
    rwa [Nat.zero_add] at H2
  obtain ⟨hoth, _, hcase⟩ := Hn
  have hstate : (hotplug_work_fn n env s).1.percpu
      = tickPercpu2 n env (tickLoop n env s).percpu := by
    rw [tick_enabled_state n env s hen]
    show tickPercpu2 n env
        (if (tickLoop n env s).other = true then resyncTable n env (tickLoop n env s).percpu
         else (tickLoop n env s).percpu) = _
    rw [if_neg (by rw [hoth]; simp)]
  constructor
  · intro hreq
    rw [tick_enabled_out n env s hen] at hreq ⊢
    dsimp only at hreq ⊢
    rcases hcase with ⟨_, _, hm⟩ | ⟨_, _, t0, hq, _⟩ | ⟨_, t0, m, hq, _⟩
    · exact hm
    · exfalso
      rw [hq] at hreq
      omega
    · exfalso
      rw [hq] at hreq
      omega
  · intro t0 hreq
    rw [tick_enabled_out n env s hen] at hreq
    dsimp only at hreq
    rcases hcase with ⟨_, hqq, hm⟩ | ⟨hs, hm, t1, hq, ht1, hon, hint⟩ |
      ⟨hs, t1, m, hq, hm, htm, hmi, hmoff, hon, hint, hub⟩
    · exfalso
      rw [hqq] at hreq
      omega
    · have ht : t1 = t0 := by
        rw [hq] at hreq
        omega
      subst ht
      left
      refine ⟨?_, fun c h1 h2 => hint c h1 h2⟩
      rw [tick_enabled_out n env s hen]
      exact hm
    · have ht : t1 = t0 := by
        rw [hq] at hreq
        omega
      subst ht
      right
      refine ⟨m, ?_, hmoff, htm, hmi, hint, ?_, hon⟩
      · rw [tick_enabled_out n env s hen]
        exact hm
      · rw [hstate, tickPercpu2_percpu_up_by]
        exact hub

/-- Witness for C4's amended theorem: with cpu 1 offline and cpu 0 the
trigger, the tick marks exactly cpu 1 online with up_by_cpu 1 set to 0. -/
theorem C4_up_marking_follows_trigger_witness :
    (0 < sC4w.tuners.hotplug_enable
      ∧ (∀ c, c < 4 → (sC4w.percpu c).online = envC4w.cpu_online c))
    ∧ ((hotplug_work_fn 4 envC4w sC4w).2.up_cpu_req = -1
        → (hotplug_work_fn 4 envC4w sC4w).2.onlineMarked = []) :=
  ⟨⟨by decide, by decide⟩,
   (C4_up_marking_follows_trigger 4 envC4w sC4w (by decide) (by decide)).1⟩

theorem tick_preserves_tuners (n : Nat) (env : Env) (s : HState) :
    (hotplug_work_fn n env s).1.tuners = s.tuners := by
  by_cases h : 0 < s.tuners.hotplug_enable
  · rw [tick_enabled_state n env s h]
  · rw [tick_disabled n env s h]

theorem tick_rate_enabled (n : Nat) (env : Env) (s : HState)
    (h : 0 < s.tuners.hotplug_enable) :
    (hotplug_work_fn n env s).1.hotplugging_rate = tickRateWrap s := by
  rw [tick_enabled_state n env s h]

/-- C9: with cpu_up_rate 10 and cpu_down_rate 20, starting from a freshly
enabled controller (tick counter 0, which wraps to 0 once it reaches the
larger of the two rates), across the first 20 ticks check_up holds on
exactly ticks 10 and 20 and check_down on exactly tick 20 (1-indexed),
whatever the environments of the individual ticks. -/
theorem C9_rate_limiting (n : Nat) (envs : Nat → Env) (s0 : HState)
    (hen : 0 < s0.tuners.hotplug_enable)
    (hup : s0.tuners.cpu_up_rate = 10) (hdown : s0.tuners.cpu_down_rate = 20)
    (hr0 : s0.hotplugging_rate = 0) :
    ∀ t : Nat, 1 ≤ t → t ≤ 20 →
      (((hotplug_work_fn n (envs (t - 1)) (tickIter n envs s0 (t - 1))).2.check_up = true
          ↔ (t = 10 ∨ t = 20))
       ∧ ((hotplug_work_fn n (envs (t - 1)) (tickIter n envs s0 (t - 1))).2.check_down = true
          ↔ t = 20)) := by
  have inv : ∀ t : Nat, t ≤ 19 →
      (tickIter n envs s0 t).tuners = s0.tuners
      ∧ (tickIter n envs s0 t).hotplugging_rate = t := by
    intro t
    induction t with
    | zero => exact fun _ => ⟨rfl, hr0⟩
    | succ k ih =>
        intro hk
        obtain ⟨iht, ihr⟩ := ih (by omega)
        constructor
        · show (hotplug_work_fn n (envs k) (tickIter n envs s0 k)).1.tuners = s0.tuners
          rw [tick_preserves_tuners, iht]
        · show (hotplug_work_fn n (envs k) (tickIter n envs s0 k)).1.hotplugging_rate
            = k + 1
          rw [tick_rate_enabled n (envs k) _ (by rw [iht]; exact hen)]
          unfold tickRateWrap tickRate
          rw [ihr, iht, hup, hdown]
          have hmax : u32ofInt (max (10:Int) 20) = 20 := by decide
          have h32 : (k + 1) % 2^32 = k + 1 :=
            Nat.mod_eq_of_lt (lt_of_le_of_lt (by omega : k + 1 ≤ 19) (by norm_num))
          rw [hmax, h32, if_neg (by omega)]
  intro t ht1 ht20
  obtain ⟨iht, ihr⟩ := inv (t - 1) (by omega)
  have hen2 : 0 < (tickIter n envs s0 (t - 1)).tuners.hotplug_enable := by
    rw [iht]
    exact hen
  rw [tick_enabled_out n (envs (t - 1)) _ hen2]
  dsimp only
  unfold check_up_of check_down_of tickRate
  rw [ihr, iht, hup, hdown]
  have hu10 : u32ofInt (10:Int) = 10 := by decide
  have hu20 : u32ofInt (20:Int) = 20 := by decide
  have h1 : t - 1 + 1 = t := by omega
  have h32 : t % 2^32 = t :=
    Nat.mod_eq_of_lt (lt_of_le_of_lt ht20 (by norm_num))
  rw [hu10, hu20, h1, h32]
  simp only [beq_iff_eq]
  exact ⟨by omega, by omega⟩

/-- Witness for C9 at tick 10 of a concrete freshly enabled controller. -/
theorem C9_rate_limiting_witness :
    (0 < sC9.tuners.hotplug_enable ∧ sC9.tuners.cpu_up_rate = 10
      ∧ sC9.tuners.cpu_down_rate = 20 ∧ sC9.hotplugging_rate = 0
      ∧ (1:Nat) ≤ 10 ∧ (10:Nat) ≤ 20)
    ∧ (((hotplug_work_fn 4 ((fun _ => envC9) (10 - 1))
          (tickIter 4 (fun _ => envC9) sC9 (10 - 1))).2.check_up = true
        ↔ ((10:Nat) = 10 ∨ (10:Nat) = 20))
       ∧ ((hotplug_work_fn 4 ((fun _ => envC9) (10 - 1))
          (tickIter 4 (fun _ => envC9) sC9 (10 - 1))).2.check_down = true
        ↔ (10:Nat) = 20)) :=
  ⟨⟨by decide, rfl, rfl, rfl, by decide, by decide⟩,
   C9_rate_limiting 4 (fun _ => envC9) sC9 (by decide) rfl rfl rfl 10 (by decide) (by decide)⟩

theorem upEvalPhase_tbl_congr (ctx : TickCtx) (T T2 : HotplugTables) (acc : LoopAcc)
    (cpu : Nat) (o : Bool) (l : Int) (f : Nat)
    (h2 : T.hotplug_load cpu UP_INDEX = T2.hotplug_load cpu UP_INDEX)
    (h4 : T.hotplug_freq cpu UP_INDEX = T2.hotplug_freq cpu UP_INDEX)
    (h6 : T.hotplug_rq cpu UP_INDEX = T2.hotplug_rq cpu UP_INDEX) :
    upEvalPhase { ctx with tbl := T } acc cpu o l f
      = upEvalPhase { ctx with tbl := T2 } acc cpu o l f := by
  dsimp only [upEvalPhase]
  rw [h2, h4, h6]

theorem downEvalPhase_tbl_congr (ctx : TickCtx) (T T2 : HotplugTables) (acc : LoopAcc)
    (cpu : Nat) (o : Bool) (l : Int) (f : Nat)
    (h1 : T.hotplug_load cpu DOWN_INDEX = T2.hotplug_load cpu DOWN_INDEX)
    (h3 : T.hotplug_freq cpu DOWN_INDEX = T2.hotplug_freq cpu DOWN_INDEX)
    (h5 : T.hotplug_rq cpu DOWN_INDEX = T2.hotplug_rq cpu DOWN_INDEX) :
    downEvalPhase { ctx with tbl := T } acc cpu o l f
      = downEvalPhase { ctx with tbl := T2 } acc cpu o l f := by
  dsimp only [downEvalPhase]
  rw [h1, h3, h5]

/-- C1 (amended): the threshold triples used in the per-cpu loop's
comparisons for a core are the hotplug_load / hotplug_freq / hotplug_rq
entries at the core's own index (and direction): two threshold tables
that agree on row cpu produce identical loop-body behavior at cpu, no
matter how they differ elsewhere (in particular at the row selected by
the current online-core count). -/
theorem C1_thresholds_indexed_by_core (ctx : TickCtx) (T T2 : HotplugTables)
    (acc : LoopAcc) (cpu : Nat)
    (h1 : T.hotplug_load cpu DOWN_INDEX = T2.hotplug_load cpu DOWN_INDEX)
    (h2 : T.hotplug_load cpu UP_INDEX = T2.hotplug_load cpu UP_INDEX)
    (h3 : T.hotplug_freq cpu DOWN_INDEX = T2.hotplug_freq cpu DOWN_INDEX)
    (h4 : T.hotplug_freq cpu UP_INDEX = T2.hotplug_freq cpu UP_INDEX)
    (h5 : T.hotplug_rq cpu DOWN_INDEX = T2.hotplug_rq cpu DOWN_INDEX)
    (h6 : T.hotplug_rq cpu UP_INDEX = T2.hotplug_rq cpu UP_INDEX) :
    hotplugLoopBody { ctx with tbl := T } acc cpu
      = hotplugLoopBody { ctx with tbl := T2 } acc cpu := by
  dsimp only [hotplugLoopBody, computeFreq]
  rw [upEvalPhase_tbl_congr ctx T T2 _ cpu _ _ _ h2 h4 h6,
      downEvalPhase_tbl_congr ctx T T2 _ cpu _ _ _ h1 h3 h5]

/-- Witness for C1's amended theorem: tblC1 and tblC2 agree on row 1 but
differ on row 0, and the loop body at cpu 1 is identical under both. -/
theorem C1_thresholds_indexed_by_core_witness :
    (tblC1.hotplug_load 1 DOWN_INDEX = tblC2.hotplug_load 1 DOWN_INDEX
      ∧ tblC1.hotplug_freq 1 DOWN_INDEX = tblC2.hotplug_freq 1 DOWN_INDEX
      ∧ tblC1.hotplug_rq 1 UP_INDEX = tblC2.hotplug_rq 1 UP_INDEX)
    ∧ hotplugLoopBody { (tickCtx 4 envC1 sC1) with tbl := tblC1 } (tickAcc0 sC1) 1
        = hotplugLoopBody { (tickCtx 4 envC1 sC1) with tbl := tblC2 } (tickAcc0 sC1) 1 :=
  ⟨⟨by decide, by decide, by decide⟩,
   C1_thresholds_indexed_by_core (tickCtx 4 envC1 sC1) tblC1 tblC2 (tickAcc0 sC1) 1
     (by decide) (by decide) (by decide) (by decide) (by decide) (by decide)⟩

end Alucard
